/-
Verification of the METRO Blender plugin metadata mapper
(`metro_metadata`: constants.py, properties.py, utils.py, injector.py,
reader.py) against its natural-language specification.

The Python code is shallowly embedded: Blender property groups become
plain Lean structures over `String`/`Int`/`Bool`/`ℚ` (rationals stand in
for Python floats; no claim here depends on binary float rounding),
Python dicts of JSON-like values become association lists of `PyVal`,
and code that can raise returns `Except PyErr`.
-/
import Mathlib

set_option linter.unusedVariables false

/-- A Python/JSON-like runtime value as stored in Blender custom
properties and in the collected metadata document. -/
inductive PyVal where
  | str (s : String)
  | int (n : Int)
  | float (q : ℚ)
  | bool (b : Bool)
  | list (xs : List PyVal)
  | dict (xs : List (String × PyVal))
  | none

/-- Python exception classes raised by the embedded code. -/
inductive PyErr where
  | valueError (msg : String)
  | indexError (msg : String)
  | typeError (msg : String)
deriving DecidableEq

/-- Dictionary lookup (`data[key]` / `data.get(key)`): first binding of
the key in the association list, mirroring a Python dict with unique
keys. -/
def dlookup (key : String) : List (String × PyVal) → Option PyVal
  | [] => Option.none
  | (k, v) :: rest => if key = k then some v else dlookup key rest

/-- `key in data` membership test for a dict. -/
def dmem (key : String) (data : List (String × PyVal)) : Bool :=
  (dlookup key data).isSome

/-- `d[k] = v` on a Python dict: update the existing binding in place,
or append a new one (insertion order preserved). -/
def dictSet {α : Type} : List (String × α) → String → α → List (String × α)
  | [], k, v => [(k, v)]
  | (k0, v0) :: rest, k, v =>
    if k = k0 then (k0, v) :: rest else (k0, v0) :: dictSet rest k v

/-- `d.update(m)` on a Python dict. -/
def dictUpdate {α : Type} (d m : List (String × α)) : List (String × α) :=
  m.foldl (fun acc kv => dictSet acc kv.1 kv.2) d

/-- String-valued dict lookup (for the static registry tables). -/
def slookup (key : String) : List (String × String) → Option String
  | [] => Option.none
  | (k, v) :: rest => if key = k then some v else slookup key rest

/-- Python truthiness (`bool(v)`) for the embedded value type. -/
def pyTruthy : PyVal → Bool
  | .str s => decide (s ≠ "")
  | .int n => decide (n ≠ 0)
  | .float q => decide (q ≠ 0)
  | .bool b => b
  | .list xs => !xs.isEmpty
  | .dict xs => !xs.isEmpty
  | .none => false

mutual

/-- Python `repr(v)` for the embedded values.  String escaping inside
`repr` of a string is not modelled (no claim evaluates it). -/
def pyRepr : PyVal → String
  | .str s => "\x27" ++ s ++ "\x27"
  | .int n => toString n
  | .float q => toString q
  | .bool b => cond b "True" "False"
  | .none => "None"
  | .list xs => "[" ++ pyReprList xs ++ "]"
  | .dict xs => "\x7b" ++ pyReprDict xs ++ "\x7d"

def pyReprList : List PyVal → String
  | [] => ""
  | [x] => pyRepr x
  | x :: xs => pyRepr x ++ ", " ++ pyReprList xs

def pyReprDict : List (String × PyVal) → String
  | [] => ""
  | [(k, v)] => "\x27" ++ k ++ "\x27: " ++ pyRepr v
  | (k, v) :: xs => "\x27" ++ k ++ "\x27: " ++ pyRepr v ++ ", " ++ pyReprDict xs

end

/-- Python `str(v)`.  The `float` case is a stand-in (Python float repr
is not reproduced digit-for-digit; no claim evaluates it). -/
def pyStr : PyVal → String
  | .str s => s
  | .int n => toString n
  | .float q => toString q
  | .bool b => cond b "True" "False"
  | .none => "None"
  | .list xs => pyRepr (.list xs)
  | .dict xs => pyRepr (.dict xs)

/-- The whitespace characters stripped by Python `str.strip()`
(ASCII subset; the repository only strips ASCII text). -/
def _is_py_space (c : Char) : Bool :=
  c == ' ' || c == '\t' || c == '\n' || c == '\x0d' || c == '\x0b' || c == '\x0c'

def _strip_chars (cs : List Char) : List Char :=
  ((cs.dropWhile _is_py_space).reverse.dropWhile _is_py_space).reverse

/-- Python `s.strip()`. -/
def pyStrip (s : String) : String := String.mk (_strip_chars s.data)

/-- Python `s.split(sep)` for a single-character separator: keeps empty
pieces, `"".split(",") == [""]`. -/
def _split_on_char (sep : Char) : List Char → List (List Char)
  | [] => [[]]
  | c :: cs =>
    match _split_on_char sep cs with
    | [] => [[c]]
    | t :: ts => if c == sep then [] :: t :: ts else (c :: t) :: ts

def pySplit (sep : Char) (s : String) : List String :=
  (_split_on_char sep s.data).map String.mk

/-- The list comprehension `[x.strip() for x in s.split(",") if x.strip()]`
used throughout injector.py and utils.py. -/
def _split_strip (s : String) : List String :=
  ((pySplit ',' s).map pyStrip).filter (fun t => t != "")

/-- Python `sep.join(xs)`. -/
def pyJoin (sep : String) (xs : List String) : String :=
  String.intercalate sep xs

/-- Python `s.lower()` (ASCII case folding; the alias keys are ASCII). -/
def pyLower (s : String) : String := String.mk (s.data.map Char.toLower)

/-- Python `s.startswith(prefix)`. -/
def pyStartsWith (s pre : String) : Bool :=
  (s.data.take pre.data.length) == pre.data

-- ---------------------------------------------------------------------------
-- constants.py
-- ---------------------------------------------------------------------------

/-- constants.py: `SCHEMA_VERSION`. -/
def SCHEMA_VERSION : String := "1.0.0"

/-- constants.py: `SCENE_METADATA_KEY`. -/
def SCENE_METADATA_KEY : String := "metro_metadata"

/-- constants.py: `SIDECAR_EXTENSION`. -/
def SIDECAR_EXTENSION : String := ".metro.json"

/-- constants.py: `ASSET_FORMAT_ITEMS` (identifier, name, description). -/
def ASSET_FORMAT_ITEMS : List (String × String × String) :=
  [("gltf", "glTF", "GL Transmission Format"),
   ("glb", "GLB", "GL Transmission Format (Binary)"),
   ("usdz", "USDZ", "Universal Scene Description (Zip)"),
   ("blend", "Blend", "Blender native format"),
   ("fbx", "FBX", "Autodesk FBX"),
   ("obj", "OBJ", "Wavefront OBJ"),
   ("stl", "STL", "Stereolithography"),
   ("ply", "PLY", "Polygon File Format")]

/-- constants.py: `ACCESS_LEVEL_ITEMS`. -/
def ACCESS_LEVEL_ITEMS : List (String × String × String) :=
  [("private", "Private", "Only owner can access"),
   ("group", "Group", "Authorized users/institutions"),
   ("institution", "Institution", "Same institution members"),
   ("consortium", "Consortium", "All DTRIP4H members"),
   ("approval_required", "Approval Required", "Explicit approval needed"),
   ("public", "Public", "Any authenticated user")]

/-- constants.py: `USE_CASE_ITEMS`. -/
def USE_CASE_ITEMS : List (String × String × String) :=
  [("NONE", "None", "No specific use case"),
   ("UC2", "UC2", "Use Case 2"),
   ("UC3", "UC3", "Use Case 3"),
   ("UC4", "UC4", "Use Case 4"),
   ("UC5", "UC5", "Use Case 5")]

/-- constants.py: `PROJECT_PHASE_ITEMS`. -/
def PROJECT_PHASE_ITEMS : List (String × String × String) :=
  [("NONE", "None", "Not specified"),
   ("prototype", "Prototype", "Early development / proof of concept"),
   ("development", "Development", "Active development"),
   ("production", "Production", "Production-ready"),
   ("archived", "Archived", "No longer actively maintained")]

/-- constants.py: `LICENSE_ITEMS`. -/
def LICENSE_ITEMS : List (String × String × String) :=
  [("NONE", "None", "No license specified"),
   ("CC-BY-4.0", "CC BY 4.0", "Creative Commons Attribution 4.0"),
   ("CC-BY-SA-4.0", "CC BY-SA 4.0", "Creative Commons Attribution-ShareAlike 4.0"),
   ("CC-BY-NC-4.0", "CC BY-NC 4.0", "Creative Commons Attribution-NonCommercial 4.0"),
   ("CC-BY-NC-SA-4.0", "CC BY-NC-SA 4.0",
    "Creative Commons Attribution-NonCommercial-ShareAlike 4.0"),
   ("CC0-1.0", "CC0 1.0", "Creative Commons Zero / Public Domain"),
   ("MIT", "MIT", "MIT License"),
   ("Apache-2.0", "Apache 2.0", "Apache License 2.0"),
   ("OTHER", "Other", "Other license (specify in description)")]

/-- The identifier column of a Blender `EnumProperty` items list: the
values `setattr` accepts for that enum property. -/
def enumIds (items : List (String × String × String)) : List String :=
  items.map (fun it => it.1)

/-- constants.py: `FORMAT_TO_MIME`. -/
def FORMAT_TO_MIME : List (String × String) :=
  [("gltf", "model/gltf+json"),
   ("glb", "model/gltf-binary"),
   ("usdz", "model/vnd.usdz+zip"),
   ("blend", "application/x-blender"),
   ("fbx", "application/x-fbx"),
   ("obj", "model/obj"),
   ("stl", "model/stl"),
   ("ply", "application/x-ply")]

/-- constants.py: `FIELD_MAP_TO_API` (internal snake_case key to API
camelCase / dotted path), in source order. -/
def FIELD_MAP_TO_API : List (String × String) :=
  [("asset_name", "name"),
   ("description", "description"),
   ("asset_format", "format"),
   ("tri_count", "triCount"),
   ("tags", "tags"),
   ("use_case", "useCase"),
   ("provenance_tool", "provenance.tool"),
   ("provenance_source_data", "provenance.sourceData"),
   ("access_level", "accessLevel"),
   ("license", "license"),
   ("attribution_required", "attributionRequired"),
   ("lineage_id", "lineageId"),
   ("derived_from_asset", "derivedFromAsset"),
   ("lod_levels", "lodLevels"),
   ("bounding_box_x", "boundingBox.x"),
   ("bounding_box_y", "boundingBox.y"),
   ("bounding_box_z", "boundingBox.z"),
   ("material_count", "materialProperties.materialCount"),
   ("has_textures", "materialProperties.hasTextures"),
   ("supports_pbr", "materialProperties.supportsPBR"),
   ("vertex_count", "qualityMetrics.vertexCount"),
   ("scientific_domain", "scientificDomain"),
   ("source_data_format", "sourceDataFormat"),
   ("processing_parameters", "processingParameters"),
   ("project_phase", "projectPhase"),
   ("theme_scheme", "theme.scheme"),
   ("theme_code", "theme.code"),
   ("supports_vr", "visualizationCapabilities.supportsVR"),
   ("supports_ar", "visualizationCapabilities.supportsAR"),
   ("usage_constraints", "usageConstraints"),
   ("usage_guidelines_viewer", "usageGuidelines.recommended_viewer"),
   ("usage_guidelines_notes", "usageGuidelines.notes"),
   ("deployment_notes", "deploymentNotes"),
   ("geo_restrictions", "geoRestrictions"),
   ("access_scope", "accessScope")]

/-- constants.py: `FIELD_MAP_FROM_API = {v: k for k, v in
FIELD_MAP_TO_API.items()}` — built pair by pair like the Python dict
comprehension (a later duplicate value would overwrite). -/
def FIELD_MAP_FROM_API : List (String × String) :=
  FIELD_MAP_TO_API.foldl (fun acc kv => dictSet acc kv.2 kv.1) []

/-- constants.py: `GLTF_EXTRAS_ALIASES`. -/
def GLTF_EXTRAS_ALIASES : List (String × String) :=
  [("title", "asset_name"),
   ("name", "asset_name"),
   ("description", "description"),
   ("author", "provenance_tool"),
   ("generator", "provenance_tool"),
   ("license", "license"),
   ("copyright", "license"),
   ("tags", "tags"),
   ("keywords", "tags")]

-- ---------------------------------------------------------------------------
-- properties.py: the flat, user-editable metadata record
-- ---------------------------------------------------------------------------

/-- properties.py: `METRO_PG_CoreMetadata`.  Enum properties are carried
as their identifier strings. -/
@[ext] structure METRO_PG_CoreMetadata where
  asset_name : String
  description : String
  asset_format : String
  tri_count : Int
  tags : String
  use_case : String
deriving DecidableEq

/-- properties.py: `METRO_PG_ProvenanceMetadata`. -/
@[ext] structure METRO_PG_ProvenanceMetadata where
  provenance_tool : String
  provenance_source_data : String
deriving DecidableEq

/-- properties.py: `METRO_PG_AccessControlMetadata`. -/
@[ext] structure METRO_PG_AccessControlMetadata where
  access_level : String
  license : String
  attribution_required : Bool
deriving DecidableEq

/-- properties.py: `METRO_PG_LineageMetadata`. -/
@[ext] structure METRO_PG_LineageMetadata where
  lineage_id : String
  derived_from_asset : String
deriving DecidableEq

/-- properties.py: `METRO_PG_TechnicalMetadata` (floats as ℚ). -/
@[ext] structure METRO_PG_TechnicalMetadata where
  vertex_count : Int
  bounding_box_x : ℚ
  bounding_box_y : ℚ
  bounding_box_z : ℚ
  material_count : Int
  has_textures : Bool
  supports_pbr : Bool
  lod_levels : Int
  scientific_domain : String
  source_data_format : String
  processing_parameters : String
deriving DecidableEq

/-- properties.py: `METRO_PG_ProjectMetadata`. -/
@[ext] structure METRO_PG_ProjectMetadata where
  project_phase : String
  theme_scheme : String
  theme_code : String
  supports_vr : Bool
  supports_ar : Bool
  usage_constraints : String
  usage_guidelines_viewer : String
  usage_guidelines_notes : String
  deployment_notes : String
  geo_restrictions : String
  access_scope : String
deriving DecidableEq

/-- The scene-level aggregate: the six property groups attached to
`bpy.types.Scene` by `register_properties`. -/
@[ext] structure Scene where
  metro_core : METRO_PG_CoreMetadata
  metro_provenance : METRO_PG_ProvenanceMetadata
  metro_access : METRO_PG_AccessControlMetadata
  metro_lineage : METRO_PG_LineageMetadata
  metro_technical : METRO_PG_TechnicalMetadata
  metro_project : METRO_PG_ProjectMetadata
deriving DecidableEq

/-- Declared defaults of `METRO_PG_CoreMetadata` (properties.py). -/
def core_default : METRO_PG_CoreMetadata :=
  { asset_name := "", description := "", asset_format := "glb",
    tri_count := 0, tags := "", use_case := "NONE" }

/-- Declared defaults of `METRO_PG_ProvenanceMetadata`. -/
def provenance_default : METRO_PG_ProvenanceMetadata :=
  { provenance_tool := "", provenance_source_data := "" }

/-- Declared defaults of `METRO_PG_AccessControlMetadata`. -/
def access_default : METRO_PG_AccessControlMetadata :=
  { access_level := "private", license := "NONE", attribution_required := false }

/-- Declared defaults of `METRO_PG_LineageMetadata`. -/
def lineage_default : METRO_PG_LineageMetadata :=
  { lineage_id := "", derived_from_asset := "" }

/-- Declared defaults of `METRO_PG_TechnicalMetadata`. -/
def technical_default : METRO_PG_TechnicalMetadata :=
  { vertex_count := 0, bounding_box_x := 0, bounding_box_y := 0,
    bounding_box_z := 0, material_count := 0, has_textures := false,
    supports_pbr := false, lod_levels := 0, scientific_domain := "",
    source_data_format := "", processing_parameters := "" }

/-- Declared defaults of `METRO_PG_ProjectMetadata`. -/
def project_default : METRO_PG_ProjectMetadata :=
  { project_phase := "NONE", theme_scheme := "", theme_code := "",
    supports_vr := false, supports_ar := false, usage_constraints := "",
    usage_guidelines_viewer := "", usage_guidelines_notes := "",
    deployment_notes := "", geo_restrictions := "", access_scope := "" }

/-- A freshly created scene: every field at its declared default. -/
def scene_default : Scene :=
  { metro_core := core_default, metro_provenance := provenance_default,
    metro_access := access_default, metro_lineage := lineage_default,
    metro_technical := technical_default, metro_project := project_default }

-- ---------------------------------------------------------------------------
-- utils.py
-- ---------------------------------------------------------------------------

/-- utils.py: `truncate(text, max_length)`. -/
def truncate (text : String) (max_length : Nat) : String :=
  if text = "" ∨ text.length ≤ max_length then text
  else text.take (max_length - 3) ++ "..."

def _is_hex_char (c : Char) : Bool :=
  c.isDigit || ('a' ≤ c && c ≤ 'f') || ('A' ≤ c && c ≤ 'F')

/-- What `_UUID_PATTERN` (with `re.IGNORECASE`) requires of the
character at position `i` of a 36-character candidate: dashes at
8/13/18/23, the version nibble `4` at 14, a variant nibble in
`[89ab]` (case-insensitive) at 19, hex digits elsewhere. -/
def _uuid_pos_ok (i : Nat) (c : Char) : Bool :=
  if i = 8 ∨ i = 13 ∨ i = 18 ∨ i = 23 then c == '-'
  else if i = 14 then c == '4'
  else if i = 19 then
    c == '8' || c == '9' || c == 'a' || c == 'b' || c == 'A' || c == 'B'
  else _is_hex_char c

def _uuid_match (cs : List Char) : Bool :=
  cs.length == 36 && cs.enum.all (fun p => _uuid_pos_ok p.1 p.2)

/-- utils.py: `is_valid_uuid(value)`, the anchored UUID-v4 regex match.
Python `$` also matches just before one trailing newline, hence the
second disjunct. -/
def is_valid_uuid (value : String) : Bool :=
  if value = "" then false
  else
    _uuid_match value.data ||
      (value.data.getLast? == some '\n' && _uuid_match value.data.dropLast)

/-- utils.py: `parse_comma_list(value)`. -/
def parse_comma_list (value : String) : List String :=
  if value = "" then [] else _split_strip value

/-- utils.py: `validate_name(name)`. -/
def validate_name (name : String) : Bool × String :=
  if name = "" then (false, "Name is required")
  else if name.length > 100 then
    (false, "Name too long (" ++ toString name.length ++ "/100 characters)")
  else (true, "")

/-- utils.py: `validate_description(description)`. -/
def validate_description (description : String) : Bool × String :=
  if description ≠ "" ∧ description.length > 500 then
    (false, "Description too long (" ++ toString description.length ++ "/500 characters)")
  else (true, "")

/-- utils.py: `validate_tags(tags_string)`. -/
def validate_tags (tags_string : String) : Bool × String :=
  let tags := parse_comma_list tags_string
  if tags.length > 20 then
    (false, "Too many tags (" ++ toString tags.length ++ "/20)")
  else
    match tags.find? (fun tag => decide (tag.length > 50)) with
    | some tag =>
      (false, "Tag \x27" ++ truncate tag 20 ++ "\x27 too long (" ++
        toString tag.length ++ "/50 chars)")
    | Option.none => (true, "")

/-- The repeated `valid, msg = validate_x(...); if not valid:
errors.append((field, msg))` step of `validate_metadata`. -/
def _check (field : String) (result : Bool × String) : List (String × String) :=
  match result with
  | (true, _) => []
  | (false, msg) => [(field, msg)]

/-- utils.py: `validate_metadata(scene)` — the four independent checks,
errors accumulated in order. -/
def validate_metadata (scene : Scene) : List (String × String) :=
  let core := scene.metro_core
  let lineage := scene.metro_lineage
  _check "name" (validate_name core.asset_name) ++
  _check "description" (validate_description core.description) ++
  _check "tags" (validate_tags core.tags) ++
  (if lineage.lineage_id ≠ "" ∧ is_valid_uuid lineage.lineage_id = false then
    [("lineageId", "Lineage ID must be a valid UUID v4")]
   else [])

example : validate_metadata scene_default = [("name", "Name is required")] := rfl

example : is_valid_uuid "123e4567-e89b-42d3-a456-426614174000" = true := by decide

example : is_valid_uuid "not-a-uuid" = false := by decide

example : _split_strip " a , b ,, " = ["a", "b"] := rfl


-- ---------------------------------------------------------------------------
-- injector.py: collect_metadata and the sidecar export path logic
-- ---------------------------------------------------------------------------

/-- Python `round(x, 4)` on the bounding-box floats, modelled on ℚ.
(CPython rounds half-to-even on binary doubles; every theorem below
only ever uses inputs that rounding leaves fixed, so the tie-breaking
choice is irrelevant.) -/
def round4 (x : ℚ) : ℚ := ((round (x * 10000) : ℤ) : ℚ) / 10000

/-- One `if cond: data[key] = value` step of `collect_metadata`:
conditionally include the key/value pair at this position. -/
def consIf (c : Prop) [Decidable c] (p : String × PyVal)
    (rest : List (String × PyVal)) : List (String × PyVal) :=
  if c then p :: rest else rest

/-- `segIf` is `consIf` into an empty tail: used for the small nested
sub-dicts (`provenance`, `theme`, `usageGuidelines`). -/
def segIf (c : Prop) [Decidable c] (k : String) (v : PyVal) :
    List (String × PyVal) :=
  if c then [(k, v)] else []

/-- The `provenance = {}` sub-dict built by `collect_metadata`
(injector.py lines 58-64). -/
def _prov_dict (prov : METRO_PG_ProvenanceMetadata) : List (String × PyVal) :=
  segIf (prov.provenance_tool ≠ "") "tool" (.str prov.provenance_tool) ++
  segIf (pyStrip prov.provenance_source_data ≠ "") "sourceData"
    (.list ((_split_strip prov.provenance_source_data).map .str))

/-- The `theme = {}` sub-dict built by `collect_metadata`
(injector.py lines 118-124). -/
def _theme_dict (proj : METRO_PG_ProjectMetadata) : List (String × PyVal) :=
  segIf (proj.theme_scheme ≠ "") "scheme" (.str proj.theme_scheme) ++
  segIf (proj.theme_code ≠ "") "code" (.str proj.theme_code)

/-- The `guidelines = {}` sub-dict built by `collect_metadata`
(injector.py lines 135-141). -/
def _guidelines_dict (proj : METRO_PG_ProjectMetadata) : List (String × PyVal) :=
  segIf (proj.usage_guidelines_viewer ≠ "") "recommended_viewer"
    (.str proj.usage_guidelines_viewer) ++
  segIf (proj.usage_guidelines_notes ≠ "") "notes"
    (.str proj.usage_guidelines_notes)

/-- injector.py `collect_metadata(scene)`: the ordered key/value pairs of
the produced dict.  `json_loads` is the injected model of Python
`json.loads` (`none` models a raised `JSONDecodeError`).  The
`derivedFromAsset` entry uses `headD ""` for the empty-uris case in
which the Python code raises `IndexError`; `collect_metadata` below
turns exactly that case into the error, so the placeholder is
unreachable through `collect_metadata`. -/
def collect_fields (json_loads : String → Option PyVal) (scene : Scene) :
    List (String × PyVal) :=
  let core := scene.metro_core
  let prov := scene.metro_provenance
  let access := scene.metro_access
  let lineage := scene.metro_lineage
  let tech := scene.metro_technical
  let proj := scene.metro_project
  let provenance : List (String × PyVal) := _prov_dict prov
  let theme : List (String × PyVal) := _theme_dict proj
  let guidelines : List (String × PyVal) := _guidelines_dict proj
  ("_schema_version", .str SCHEMA_VERSION) ::
  consIf (core.asset_name ≠ "")
    ("name", .str core.asset_name)
  (consIf (core.description ≠ "")
    ("description", .str core.description)
  (("format", .str core.asset_format) ::
  consIf (core.tri_count > 0)
    ("triCount", .int core.tri_count)
  (consIf (pyStrip core.tags ≠ "")
    ("tags", .list ((_split_strip core.tags).map .str))
  (consIf (core.use_case ≠ "NONE")
    ("useCase", .str core.use_case)
  (consIf (provenance.isEmpty = false)
    ("provenance", .dict provenance)
  (("accessLevel", .str access.access_level) ::
  consIf (access.license ≠ "NONE")
    ("license", .str access.license)
  (("attributionRequired", .bool access.attribution_required) ::
  consIf (lineage.lineage_id ≠ "")
    ("lineageId", .str lineage.lineage_id)
  (consIf (pyStrip lineage.derived_from_asset ≠ "")
    ("derivedFromAsset", (let uris := _split_strip lineage.derived_from_asset
       if uris.length > 1 then .list (uris.map .str) else .str (uris.headD "")))
  (consIf (tech.lod_levels > 0)
    ("lodLevels", .int tech.lod_levels)
  (consIf (tech.bounding_box_x > 0 ∨ tech.bounding_box_y > 0 ∨ tech.bounding_box_z > 0)
    ("boundingBox", .dict [("x", .float (round4 tech.bounding_box_x)),
             ("y", .float (round4 tech.bounding_box_y)),
             ("z", .float (round4 tech.bounding_box_z))])
  (consIf (tech.material_count > 0 ∨ tech.has_textures = true ∨ tech.supports_pbr = true)
    ("materialProperties", .dict [("materialCount", .int tech.material_count),
             ("hasTextures", .bool tech.has_textures),
             ("supportsPBR", .bool tech.supports_pbr)])
  (consIf (tech.vertex_count > 0)
    ("qualityMetrics", .dict [("vertexCount", .int tech.vertex_count)])
  (consIf (tech.scientific_domain ≠ "")
    ("scientificDomain", .str tech.scientific_domain)
  (consIf (tech.source_data_format ≠ "")
    ("sourceDataFormat", .str tech.source_data_format)
  (consIf (pyStrip tech.processing_parameters ≠ "")
    ("processingParameters", (match json_loads tech.processing_parameters with
       | some v => v
       | Option.none => .str tech.processing_parameters))
  (consIf (proj.project_phase ≠ "NONE")
    ("projectPhase", .str proj.project_phase)
  (consIf (proj.theme_scheme ≠ "" ∨ proj.theme_code ≠ "")
    ("theme", .dict theme)
  (consIf (proj.supports_vr = true ∨ proj.supports_ar = true)
    ("visualizationCapabilities", .dict [("supportsVR", .bool proj.supports_vr),
             ("supportsAR", .bool proj.supports_ar)])
  (consIf (proj.usage_constraints ≠ "")
    ("usageConstraints", .str proj.usage_constraints)
  (consIf (proj.usage_guidelines_viewer ≠ "" ∨ proj.usage_guidelines_notes ≠ "")
    ("usageGuidelines", .dict guidelines)
  (consIf (proj.deployment_notes ≠ "")
    ("deploymentNotes", .str proj.deployment_notes)
  (consIf (pyStrip proj.geo_restrictions ≠ "")
    ("geoRestrictions", .list ((_split_strip proj.geo_restrictions).map .str))
  (consIf (pyStrip proj.access_scope ≠ "")
    ("accessScope", .list ((_split_strip proj.access_scope).map .str))
  ((match slookup core.asset_format FORMAT_TO_MIME with
   | some mime => [("encodingFormat", .str mime)]
   | Option.none => [])))))))))))))))))))))))))

/-- injector.py `collect_metadata(scene)`.  When
`lineage.derived_from_asset` strips to a non-empty string consisting
only of commas and whitespace, the Python code evaluates `uris[0]` on an
empty list and raises `IndexError`; that is the single failure point of
the function, modelled by the guard here. -/
def collect_metadata (json_loads : String → Option PyVal) (scene : Scene) :
    Except PyErr (List (String × PyVal)) :=
  if pyStrip scene.metro_lineage.derived_from_asset ≠ "" ∧
      _split_strip scene.metro_lineage.derived_from_asset = [] then
    .error (.indexError "list index out of range")
  else
    .ok (collect_fields json_loads scene)

/-- Python `s.rfind(c)`: index of the last occurrence, `-1` if absent. -/
def _rfind (c : Char) (cs : List Char) : Int :=
  match cs.reverse.findIdx? (fun x => x == c) with
  | some i => ((cs.length - 1 - i : Nat) : Int)
  | Option.none => -1

/-- `os.path.splitext` (posix): split off the extension at the last dot
of the final path component, treating leading dots of that component as
part of the name. -/
def splitext (p : String) : String × String :=
  let cs := p.data
  let sepIndex := _rfind '/' cs
  let dotIndex := _rfind '.' cs
  if dotIndex > sepIndex then
    let start := (sepIndex + 1).toNat
    let stop := dotIndex.toNat
    if ((cs.drop start).take (stop - start)).any (fun ch => ch != '.') then
      (String.mk (cs.take stop), String.mk (cs.drop stop))
    else (p, "")
  else (p, "")

/-- injector.py `export_sidecar_json(scene, filepath)`.  `blend_filepath`
models `bpy.data.filepath` (empty when the .blend file was never
saved).  The file write itself is outside the model: the function
returns the path it would write, and I/O errors are out of scope. -/
def export_sidecar_json (json_loads : String → Option PyVal) (scene : Scene)
    (filepath : Option String) (blend_filepath : String) : Except PyErr String :=
  match collect_metadata json_loads scene with
  | .error e => .error e
  | .ok _data =>
    match filepath with
    | some p => .ok p
    | Option.none =>
      if blend_filepath = "" then
        .error (.valueError
          "No .blend file saved. Save the file first or specify an export path.")
      else
        .ok ((splitext blend_filepath).1 ++ SIDECAR_EXTENSION)

example : splitext "/tmp/foo.blend" = ("/tmp/foo", ".blend") := rfl

example : splitext ".bashrc" = (".bashrc", "") := rfl

example : splitext "a/b.c/d" = ("a/b.c/d", "") := rfl

example (f : String → Option PyVal) :
    collect_metadata f scene_default =
      .ok [("_schema_version", .str "1.0.0"), ("format", .str "glb"),
           ("accessLevel", .str "private"), ("attributionRequired", .bool false),
           ("encodingFormat", .str "model/gltf-binary")] := rfl

-- ---------------------------------------------------------------------------
-- reader.py: type coercions and the Applier
-- ---------------------------------------------------------------------------

/-- Python digit-string value, `none` unless non-empty and all decimal
digits.  (Underscore group separators accepted by Python are not
modelled; no input here uses them.) -/
def _digits_val (cs : List Char) : Option Nat :=
  if cs.isEmpty || !(cs.all Char.isDigit) then Option.none
  else some (cs.foldl (fun acc c => acc * 10 + (c.toNat - 48)) 0)

/-- Python `int(s)` on a string: strip, optional sign, decimal digits. -/
def pyIntOfStr (s : String) : Option Int :=
  match (pyStrip s).data with
  | '+' :: rest => (_digits_val rest).map Int.ofNat
  | '-' :: rest => (_digits_val rest).map (fun n => -(n : Int))
  | cs => (_digits_val cs).map Int.ofNat

/-- Python `int(q)` on a float: truncation toward zero. -/
def pyIntOfRat (q : ℚ) : Int := if 0 ≤ q then ⌊q⌋ else ⌈q⌉

/-- Python `int(v)`: `none` models the raised `TypeError`/`ValueError`. -/
def pyInt : PyVal → Option Int
  | .int n => some n
  | .bool b => some (cond b 1 0)
  | .float q => some (pyIntOfRat q)
  | .str s => pyIntOfStr s
  | _ => Option.none

/-- Python `float(s)` on a string: strip, optional sign, decimal digits
with an optional fractional part.  (Exponent, `inf` and `nan` forms are
not modelled; no theorem evaluates them.) -/
def pyFloatOfStr (s : String) : Option ℚ :=
  let signed : List Char → Option ℚ := fun cs =>
    match _split_on_char '.' cs with
    | [a] => (_digits_val a).map (fun n => (n : ℚ))
    | [a, b] =>
      if a.isEmpty && b.isEmpty then Option.none
      else if (a.all Char.isDigit) && (b.all Char.isDigit) then
        some (((_digits_val a).getD 0 : ℚ) +
          ((_digits_val b).getD 0 : ℚ) / (10 ^ b.length : ℚ))
      else Option.none
    | _ => Option.none
  match (pyStrip s).data with
  | '+' :: rest => signed rest
  | '-' :: rest => (signed rest).map Neg.neg
  | cs => signed cs

/-- Python `float(v)` where reader.py calls it unguarded
(the `boundingBox` branch): failures raise. -/
def pyFloat : PyVal → Except PyErr ℚ
  | .float q => .ok q
  | .int n => .ok (n : ℚ)
  | .bool b => .ok (cond b 1 0)
  | .str s =>
    match pyFloatOfStr s with
    | some q => .ok q
    | Option.none => .error (.valueError "could not convert string to float")
  | _ => .error (.typeError "float() argument must be a string or a real number")

/-- Python `int(v)` where reader.py calls it unguarded
(the `materialProperties` branch): failures raise. -/
def pyIntCoerce (v : PyVal) : Except PyErr Int :=
  match pyInt v with
  | some n => .ok n
  | Option.none => .error (.typeError "int() argument")

/-- What `setattr(group, prop, str(value))` does for a Blender
`StringProperty`: always succeeds with the stringified value. -/
def acceptStr : PyVal → Option String :=
  fun v => some (pyStr v)

/-- What `setattr(group, prop, str(value))` does for a Blender
`EnumProperty`: succeeds only when the string is one of the enum item
identifiers, otherwise raises `TypeError` (modelled as `none`). -/
def acceptEnum (items : List String) : PyVal → Option String :=
  fun v => if items.contains (pyStr v) then some (pyStr v) else Option.none

/-- What `setattr(group, prop, str(value))` does for a Blender
`IntProperty`: a string value always raises `TypeError`, so the
assignment never succeeds. -/
def acceptIntProp : PyVal → Option String :=
  fun _ => Option.none

/-- reader.py `_set_if(prop_name, data, group, keys)`: first key that is
present with a truthy value and whose `setattr` does not raise wins;
a raised `TypeError`/`AttributeError` moves on to the next key.  The
`accept` parameter models the property-type-dependent `setattr`. -/
def _set_if (data : List (String × PyVal)) (keys : List String)
    (accept : PyVal → Option String) : Option String :=
  match keys with
  | [] => Option.none
  | key :: rest =>
    match dlookup key data with
    | some v =>
      if pyTruthy v then
        match accept v with
        | some s => some s
        | Option.none => _set_if data rest accept
      else _set_if data rest accept
    | Option.none => _set_if data rest accept

/-- reader.py `_set_int(prop_name, data, group, keys)`: first key whose
value is present, not `None`, and coercible by `int(...)` wins. -/
def _set_int (data : List (String × PyVal)) (keys : List String) : Option Int :=
  match keys with
  | [] => Option.none
  | key :: rest =>
    match dlookup key data with
    | some PyVal.none => _set_int data rest
    | some v =>
      (match pyInt v with
       | some n => some n
       | Option.none => _set_int data rest)
    | Option.none => _set_int data rest

/-- reader.py `_set_enum(prop_name, data, group, keys)`: first key with a
truthy value whose stringification is a valid identifier of the enum
wins; an invalid enum value raises `TypeError` and is skipped. -/
def _set_enum (data : List (String × PyVal)) (keys : List String)
    (items : List String) : Option String :=
  match keys with
  | [] => Option.none
  | key :: rest =>
    match dlookup key data with
    | some v =>
      if pyTruthy v then
        (let val := pyStr v
         if items.contains val then some val else _set_enum data rest items)
      else _set_enum data rest items
    | Option.none => _set_enum data rest items

/-- reader.py `_set_tags(data, core)`: first of `tags`/`keywords`/
`dcat:keyword` with a truthy value; lists are comma-joined, anything
else is stringified. -/
def _set_tags (data : List (String × PyVal)) (keys : List String) : Option String :=
  match keys with
  | [] => Option.none
  | key :: rest =>
    match dlookup key data with
    | some v =>
      if pyTruthy v then
        some (match v with
          | .list xs => pyJoin ", " (xs.map pyStr)
          | w => pyStr w)
      else _set_tags data rest
    | Option.none => _set_tags data rest

/-- `data.get(k1, data.get(k2))` as used for the two-key fallbacks in
`_apply_metro_dict`. -/
def get2 (data : List (String × PyVal)) (k1 k2 : String) : PyVal :=
  ((dlookup k1 data).getD ((dlookup k2 data).getD PyVal.none))

/-- One `result = helper(...); if result: setattr(...); mapped += [name]`
step of `_apply_metro_dict`: apply the update when the helper produced a
value, otherwise keep the group unchanged and report nothing. -/
def _set_step {α β : Type} (r : Option β) (upd : β → α) (g : α) (nm : List String) :
    α × List String :=
  match r with
  | some v => (upd v, nm)
  | Option.none => (g, [])

/-- reader.py `_apply_metro_dict`, Core section (lines 176-181). -/
def _apply_core (data : List (String × PyVal)) (core0 : METRO_PG_CoreMetadata) :
    METRO_PG_CoreMetadata × List String :=
  let (core1, m1) := _set_step (_set_if data ["name", "asset_name", "title"] acceptStr)
    (fun s => { core0 with asset_name := s }) core0 ["asset_name"]
  let (core2, m2) := _set_step (_set_if data ["description"] acceptStr)
    (fun s => { core1 with description := s }) core1 ["description"]
  let (core3, m3) := _set_step
    (_set_if data ["format", "asset_format"] (acceptEnum (enumIds ASSET_FORMAT_ITEMS)))
    (fun s => { core2 with asset_format := s }) core2 ["asset_format"]
  -- tri_count is an IntProperty: `setattr(core, "tri_count", str(v))` always
  -- raises TypeError, so the update inside the step can never fire.
  let (core4, m4) := _set_step (_set_if data ["triCount", "tri_count", "triangleCount"] acceptIntProp)
    (fun _ => core3) core3 ["tri_count"]
  let (core5, m5) := _set_step (_set_tags data ["tags", "keywords", "dcat:keyword"])
    (fun s => { core4 with tags := s }) core4 ["tags"]
  let (core6, m6) := _set_step (_set_enum data ["useCase", "use_case"] (enumIds USE_CASE_ITEMS))
    (fun s => { core5 with use_case := s }) core5 ["use_case"]
  (core6, m1 ++ m2 ++ m3 ++ m4 ++ m5 ++ m6)

/-- reader.py `_apply_metro_dict`, Provenance section (lines 184-196). -/
def _apply_provenance (data : List (String × PyVal)) (prov0 : METRO_PG_ProvenanceMetadata) :
    METRO_PG_ProvenanceMetadata × List String :=
  let (prov1, m7) := _set_step (_set_if data ["provenance_tool", "generatedWith"] acceptStr)
    (fun s => { prov0 with provenance_tool := s }) prov0 ["provenance_tool"]
  let (prov3, m8) :=
    match dlookup "provenance" data with
    | some (.dict p) =>
      let (prov2, m8a) :=
        match dlookup "tool" p with
        | some tv => ({ prov1 with provenance_tool := pyStr tv }, ["provenance_tool"])
        | Option.none => (prov1, ([] : List String))
      (match dlookup "sourceData" p with
       | some (.list src) =>
         ({ prov2 with provenance_source_data := pyJoin ", " (src.map pyStr) },
           m8a ++ ["provenance_source_data"])
       | some sv =>
         ({ prov2 with provenance_source_data := pyStr sv },
           m8a ++ ["provenance_source_data"])
       | Option.none => (prov2, m8a))
    | _ => (prov1, [])
  (prov3, m7 ++ m8)

/-- reader.py `_apply_metro_dict`, Access section (lines 199-204). -/
def _apply_access (data : List (String × PyVal)) (access0 : METRO_PG_AccessControlMetadata) :
    METRO_PG_AccessControlMetadata × List String :=
  let (access1, m9) := _set_step
    (_set_enum data ["accessLevel", "access_level"] (enumIds ACCESS_LEVEL_ITEMS))
    (fun s => { access0 with access_level := s }) access0 ["access_level"]
  let (access2, m10) := _set_step (_set_if data ["license"] (acceptEnum (enumIds LICENSE_ITEMS)))
    (fun s => { access1 with license := s }) access1 ["license"]
  let (access3, m11) :=
    if dmem "attributionRequired" data || dmem "attribution_required" data then
      let val := get2 data "attributionRequired" "attribution_required"
      ({ access2 with attribution_required := pyTruthy val }, ["attribution_required"])
    else (access2, [])
  (access3, m9 ++ m10 ++ m11)

/-- reader.py `_apply_metro_dict`, Lineage section (lines 207-214). -/
def _apply_lineage (data : List (String × PyVal)) (lineage0 : METRO_PG_LineageMetadata) :
    METRO_PG_LineageMetadata × List String :=
  let (lineage1, m12) := _set_step (_set_if data ["lineageId", "lineage_id"] acceptStr)
    (fun s => { lineage0 with lineage_id := s }) lineage0 ["lineage_id"]
  let (lineage2, m13) :=
    if dmem "derivedFromAsset" data || dmem "derived_from_asset" data then
      (match get2 data "derivedFromAsset" "derived_from_asset" with
       | .list xs =>
         ({ lineage1 with derived_from_asset := pyJoin ", " (xs.map pyStr) },
           ["derived_from_asset"])
       | v =>
         ({ lineage1 with derived_from_asset := if pyTruthy v then pyStr v else "" },
           ["derived_from_asset"]))
    else (lineage1, [])
  (lineage2, m12 ++ m13)

/-- reader.py `_apply_metro_dict`, Technical section (lines 217-236).
The unguarded `float(...)`/`int(...)` coercions in the `boundingBox` and
`materialProperties` branches can raise, hence the `Except`. -/
def _apply_technical (data : List (String × PyVal)) (tech0 : METRO_PG_TechnicalMetadata) :
    Except PyErr (METRO_PG_TechnicalMetadata × List String) := do
  let (tech1, m14) := _set_step (_set_int data ["vertexCount", "vertex_count"])
    (fun n => { tech0 with vertex_count := n }) tech0 ["vertex_count"]
  let (tech2, m15) := _set_step (_set_int data ["lodLevels", "lod_levels"])
    (fun n => { tech1 with lod_levels := n }) tech1 ["lod_levels"]
  let (tech3, m16) := _set_step (_set_if data ["scientificDomain", "scientific_domain"] acceptStr)
    (fun s => { tech2 with scientific_domain := s }) tech2 ["scientific_domain"]
  let (tech4, m17) := _set_step (_set_if data ["sourceDataFormat", "source_data_format"] acceptStr)
    (fun s => { tech3 with source_data_format := s }) tech3 ["source_data_format"]
  let (tech5, m18) ←
    (match dlookup "boundingBox" data with
     | some (.dict bb) => do
       let x ← pyFloat ((dlookup "x" bb).getD (PyVal.int 0))
       let y ← pyFloat ((dlookup "y" bb).getD (PyVal.int 0))
       let z ← pyFloat ((dlookup "z" bb).getD (PyVal.int 0))
       let tech5 := { tech4 with bounding_box_x := x, bounding_box_y := y, bounding_box_z := z }
       Except.ok (tech5, (["bounding_box"] : List String))
     | _ => Except.ok (tech4, ([] : List String)))
  let (tech6, m19) ←
    (match dlookup "materialProperties" data with
     | some (.dict mp) => do
       let mc ← pyIntCoerce ((dlookup "materialCount" mp).getD (PyVal.int 0))
       let ht := pyTruthy ((dlookup "hasTextures" mp).getD (PyVal.bool false))
       let pbr := pyTruthy ((dlookup "supportsPBR" mp).getD (PyVal.bool false))
       let tech6 := { tech5 with material_count := mc, has_textures := ht, supports_pbr := pbr }
       Except.ok (tech6, (["material_properties"] : List String))
     | _ => Except.ok (tech5, ([] : List String)))
  Except.ok (tech6, m14 ++ m15 ++ m16 ++ m17 ++ m18 ++ m19)

/-- reader.py `_apply_metro_dict`, Project section (lines 239-248). -/
def _apply_project (data : List (String × PyVal)) (proj0 : METRO_PG_ProjectMetadata) :
    METRO_PG_ProjectMetadata × List String :=
  let (proj1, m20) := _set_step
    (_set_enum data ["projectPhase", "project_phase"] (enumIds PROJECT_PHASE_ITEMS))
    (fun s => { proj0 with project_phase := s }) proj0 ["project_phase"]
  let (proj2, m21) := _set_step (_set_if data ["usageConstraints", "usage_constraints"] acceptStr)
    (fun s => { proj1 with usage_constraints := s }) proj1 ["usage_constraints"]
  let (proj3, m22) := _set_step (_set_if data ["deploymentNotes", "deployment_notes"] acceptStr)
    (fun s => { proj2 with deployment_notes := s }) proj2 ["deployment_notes"]
  let (proj4, m23) :=
    match dlookup "visualizationCapabilities" data with
    | some (.dict vc) =>
      ({ proj3 with
          supports_vr := pyTruthy ((dlookup "supportsVR" vc).getD (PyVal.bool false)),
          supports_ar := pyTruthy ((dlookup "supportsAR" vc).getD (PyVal.bool false)) },
        (["visualization_capabilities"] : List String))
    | _ => (proj3, [])
  (proj4, m20 ++ m21 ++ m22 ++ m23)

/-- reader.py `_apply_metro_dict(scene, data)`: writes recognized values
into the property groups in source order (the six group sections are
split out above; the groups are disjoint, and the mapped-field names
are concatenated in the source's execution order) and returns the
updated scene together with the list of mapped field names. -/
def _apply_metro_dict (scene : Scene) (data : List (String × PyVal)) :
    Except PyErr (Scene × List String) := do
  let (core6, mc) := _apply_core data scene.metro_core
  let (prov3, mpr) := _apply_provenance data scene.metro_provenance
  let (access3, mac) := _apply_access data scene.metro_access
  let (lineage2, mli) := _apply_lineage data scene.metro_lineage
  let (tech6, mte) ← _apply_technical data scene.metro_technical
  let (proj4, mpj) := _apply_project data scene.metro_project
  Except.ok
    ({ metro_core := core6, metro_provenance := prov3, metro_access := access3,
       metro_lineage := lineage2, metro_technical := tech6, metro_project := proj4 },
     mc ++ mpr ++ mac ++ mli ++ mte ++ mpj)

example :
    (_apply_metro_dict scene_default
        [("name", .str "B"), ("title", .str "A")]).map
      (fun p => p.1.metro_core.asset_name) = .ok "B" := rfl

def isDict : PyVal → Bool
  | .dict _ => true
  | _ => false

def asDict : PyVal → List (String × PyVal)
  | .dict d => d
  | _ => []

/-- `list(set(xs))` on the mapped-field names.  CPython iterates a set
in an implementation-defined order; the model keeps first occurrences.
The only theorem evaluating this does so on a singleton, where every
iteration order coincides. -/
def dedupFirst (seen : List String) : List String → List String
  | [] => []
  | x :: xs => if seen.contains x then dedupFirst seen xs else x :: dedupFirst (x :: seen) xs

def pySetList (xs : List String) : List String := dedupFirst [] xs

/-- reader.py `_read_scene_metro_metadata(scene)`: the structured
`metro_metadata` scene custom property, or the parsed
`metro_metadata_json` string backup.  `_idprop_to_python` (IDProperty
`to_dict`/`to_list` conversion) is the identity in this model. -/
def _read_scene_metro_metadata (json_loads : String → Option PyVal)
    (scene_props : List (String × PyVal)) : Option PyVal :=
  let fallback : Option PyVal :=
    match dlookup (SCENE_METADATA_KEY ++ "_json") scene_props with
    | some (.str s) => json_loads s
    | _ => Option.none
  match dlookup SCENE_METADATA_KEY scene_props with
  | some (.dict d) => some (.dict d)
  | some (.str s) =>
    (match json_loads s with
     | some v => some v
     | Option.none => fallback)
  | some _ => fallback
  | Option.none => fallback

/-- reader.py `_read_object_custom_props(obj)` main loop: split the
object custom properties into METRO-mappable entries and unrecognized
raw entries, in key order. -/
def _read_object_props_loop : List (String × PyVal) → List (String × PyVal) →
    List (String × PyVal) → (List (String × PyVal)) × (List (String × PyVal))
  | [], metro, raw => (metro, raw)
  | (key, value) :: rest, metro, raw =>
    if pyStartsWith key "_" || key == "cycles" || key == "cycles_visibility" then
      _read_object_props_loop rest metro raw
    else if key == SCENE_METADATA_KEY && isDict value then
      _read_object_props_loop rest (dictUpdate metro (asDict value)) raw
    else
      match slookup (pyLower key) GLTF_EXTRAS_ALIASES with
      | some metro_field => _read_object_props_loop rest (dictSet metro metro_field value) raw
      | Option.none => _read_object_props_loop rest metro (dictSet raw key value)

/-- reader.py `_read_object_custom_props(obj)`. -/
def _read_object_custom_props (obj : List (String × PyVal)) :
    (List (String × PyVal)) × (List (String × PyVal)) :=
  _read_object_props_loop obj [] []

/-- reader.py `_read_scene_custom_props(scene)`: non-METRO scene custom
properties; alias-matching keys are skipped (they are handled in the
apply step), everything else is raw. -/
def _read_scene_custom_props (scene_props : List (String × PyVal)) :
    List (String × PyVal) :=
  let skip_keys := [SCENE_METADATA_KEY, "metro_core", "metro_provenance",
    "metro_access", "metro_lineage", "metro_technical", "metro_project", "metro_ui"]
  match scene_props with
  | [] => []
  | (key, value) :: rest =>
    if pyStartsWith key "_" || skip_keys.contains key then
      _read_scene_custom_props rest
    else
      match slookup (pyLower key) GLTF_EXTRAS_ALIASES with
      | some _ => _read_scene_custom_props rest
      | Option.none => (key, value) :: _read_scene_custom_props rest

/-- Result of `read_from_active_object`: the updated scene together with
the `mapped`/`raw` report dict it returns. -/
structure ReadResult where
  scene : Scene
  mapped : List String
  raw : List (String × PyVal)

/-- reader.py `read_from_active_object(scene)`.  `scene_props` models the
scene custom properties (`scene.keys()`), `active_object` the custom
properties of `bpy.context.active_object` (`none` when there is no
active object).  A non-dict truthy `metro_metadata` value would make
the Python code iterate a non-mapping in `_set_if` and raise
`TypeError`; that is modelled explicitly. -/
def read_from_active_object (json_loads : String → Option PyVal) (scene : Scene)
    (scene_props : List (String × PyVal))
    (active_object : Option (List (String × PyVal))) : Except PyErr ReadResult := do
  let scene_meta := _read_scene_metro_metadata json_loads scene_props
  let (scene1, mapped1) ←
    (match scene_meta with
     | some v =>
       if pyTruthy v then
         match v with
         | .dict d => _apply_metro_dict scene d
         | _ => Except.error (.typeError "argument is not iterable")
       else Except.ok (scene, ([] : List String))
     | Option.none => Except.ok (scene, ([] : List String)))
  let raw0 : List (String × PyVal) := []
  let (scene2, mapped2, raw1) ←
    (match active_object with
     | some obj => do
       let (obj_meta, obj_raw) := _read_object_custom_props obj
       if obj_meta.isEmpty = false then do
         let (s, m) ← _apply_metro_dict scene1 obj_meta
         Except.ok (s, m, dictUpdate raw0 obj_raw)
       else
         Except.ok (scene1, ([] : List String), dictUpdate raw0 obj_raw)
     | Option.none => Except.ok (scene1, ([] : List String), raw0))
  let scene_raw := _read_scene_custom_props scene_props
  let raw2 := dictUpdate raw1 scene_raw
  Except.ok { scene := scene2, mapped := pySetList (mapped1 ++ mapped2), raw := raw2 }

example :
    (read_from_active_object (fun _ => Option.none) scene_default []
        (some [("foo", .int 1), ("title", .str "X")])).map
      (fun r => (r.mapped, r.raw)) =
      .ok (["asset_name"], [("foo", .int 1)]) := rfl

-- ---------------------------------------------------------------------------
-- Claim theorems
-- ---------------------------------------------------------------------------

/-- Auxiliary: a successful `slookup` comes from a binding in the list. -/
theorem slookup_mem {k v : String} :
    ∀ {l : List (String × String)}, slookup k l = some v → (k, v) ∈ l := by
  intro l
  induction l with
  | nil => intro h; cases h
  | cons hd tl ih =>
    intro h
    rw [slookup] at h
    by_cases hk : k = hd.1
    · obtain ⟨k0, v0⟩ := hd
      subst hk
      simp only [if_pos rfl] at h
      cases h
      exact List.mem_cons_self _ _
    · obtain ⟨k0, v0⟩ := hd
      simp only [if_neg hk] at h
      exact List.mem_cons_of_mem _ (ih h)

/-- C2 (counterexample): the claim says `validate_metadata` on the
fully-empty default record returns zero errors; it does not — the list
of errors is non-empty (the empty default name violates the
name-required rule). -/
theorem C2_counterexample : validate_metadata scene_default ≠ [] := by decide

/-- C2 (amended): `validate_metadata` on the fully-empty default record
returns exactly one error, and it names the `name` field ("Name is
required"): the default empty name violates the name-required rule,
while all other rules pass on defaults. -/
theorem C2_empty_default_validation :
    validate_metadata scene_default = [("name", "Name is required")] := rfl

/-- C5: for every internal field key with an external mapping, mapping
out through `FIELD_MAP_TO_API` and back through `FIELD_MAP_FROM_API`
returns the original key (the forward map is injective, so the dict
comprehension building the reverse map loses nothing). -/
theorem C5_field_map_roundtrip :
    ∀ k v, slookup k FIELD_MAP_TO_API = some v →
      slookup v FIELD_MAP_FROM_API = some k := by
  have hall : FIELD_MAP_TO_API.all
      (fun kv => slookup kv.2 FIELD_MAP_FROM_API == some kv.1) = true := rfl
  intro k v hkv
  have hmem : (k, v) ∈ FIELD_MAP_TO_API := slookup_mem hkv
  have := List.all_eq_true.mp hall (k, v) hmem
  simpa using this

/-- C5 (witness): the round-trip at the concrete key `asset_name`. -/
theorem C5_witness :
    slookup "asset_name" FIELD_MAP_TO_API = some "name" ∧
      slookup "name" FIELD_MAP_FROM_API = some "asset_name" :=
  ⟨rfl, C5_field_map_roundtrip "asset_name" "name" rfl⟩

/-- C1 (counterexample): on the all-default record the collected
document has no `_schemaVersion` key at all (the code emits the
snake_case key `_schema_version`), and it also contains
`encodingFormat`, which the claimed four-key set excludes. -/
theorem C1_counterexample :
    (collect_metadata (fun _ => Option.none) scene_default).map
      (fun d => (dlookup "_schemaVersion" d, (d.map Prod.fst).contains "encodingFormat")) =
      .ok (Option.none, true) := rfl

/-- C1 (amended): for a record in which every field holds its
empty/default value, `collect_metadata` returns (for any JSON parser)
a document whose keys are exactly `_schema_version`, `format`,
`accessLevel`, `attributionRequired` and `encodingFormat`, with
`_schema_version` equal to the registry version string "1.0.0" and
`encodingFormat` derived from the default format `glb`. -/
theorem C1_omission_invariant :
    ∀ f : String → Option PyVal,
      collect_metadata f scene_default =
        .ok [("_schema_version", .str SCHEMA_VERSION), ("format", .str "glb"),
             ("accessLevel", .str "private"), ("attributionRequired", .bool false),
             ("encodingFormat", .str "model/gltf-binary")] :=
  fun _ => rfl

/-- C6: ingesting the foreign property set `{"foo": 1, "title": "X"}`
through `read_from_active_object` yields `mapped == ["asset_name"]` and
`raw == {"foo": 1}`: the aliased `title` key populates `asset_name`,
the unmatched `foo` key is reported raw rather than discarded. -/
theorem C6_unrecognized_passthrough :
    (read_from_active_object (fun _ => Option.none) scene_default []
        (some [("foo", .int 1), ("title", .str "X")])).map
      (fun r => (r.mapped, r.raw)) =
      .ok (["asset_name"], [("foo", .int 1)]) := rfl

/-- C9: `export_sidecar_json` (whenever collection itself succeeds)
raises a `ValueError` exactly when called with no explicit filepath and
no backing .blend path, and with a backing path and no explicit path it
returns the backing path with its extension replaced by
`.metro.json`. -/
theorem C9_sidecar_path :
    ∀ (f : String → Option PyVal) (scene : Scene) (fp : Option String)
      (blend : String) (doc : List (String × PyVal)),
      collect_metadata f scene = .ok doc →
      ((∃ msg, export_sidecar_json f scene fp blend = .error (.valueError msg)) ↔
        (fp = Option.none ∧ blend = "")) ∧
      (fp = Option.none → blend ≠ "" →
        export_sidecar_json f scene fp blend =
          .ok ((splitext blend).1 ++ SIDECAR_EXTENSION)) := by
  intro f scene fp blend doc hcol
  unfold export_sidecar_json
  rw [hcol]
  match fp with
  | some p =>
    constructor
    · constructor
      · rintro ⟨msg, h⟩; cases h
      · rintro ⟨h, -⟩; cases h
    · intro h; cases h
  | Option.none =>
    by_cases hb : blend = ""
    · subst hb
      constructor
      · simp
      · intro _ h; cases h rfl
    · constructor
      · constructor
        · rintro ⟨msg, h⟩
          rw [if_neg hb] at h
          cases h
        · rintro ⟨-, h⟩; cases hb h
      · intro _ _
        rw [if_neg hb]

/-- C9 (witness): with no explicit path and backing file
`/tmp/x.blend`, the derived sidecar path is `/tmp/x.metro.json`. -/
theorem C9_witness :
    export_sidecar_json (fun _ => Option.none) scene_default Option.none
      "/tmp/x.blend" = .ok "/tmp/x.metro.json" :=
  (C9_sidecar_path (fun _ => Option.none) scene_default Option.none
    "/tmp/x.blend" _ rfl).2 rfl (by decide)

/-- C3 (counterexample): the Applier does not check the internal
snake_case key first.  For a document carrying both the internal key
`asset_name: "A"` and the external key `name: "B"`, the claimed
internal-first precedence would store "A", but the code tries the key
list `["name", "asset_name", "title"]` and stores "B". -/
theorem C3_counterexample :
    (Except.map (fun p => p.1.metro_core.asset_name)
      (_apply_metro_dict scene_default
        [("asset_name", .str "A"), ("name", .str "B")])) = .ok "B" ∧
    ("B" : String) ≠ "A" := ⟨rfl, by decide⟩

/-- C3 (amended): for every field the Applier tries a fixed per-field
key list in which the external/camelCase API key generally comes first,
then the internal snake_case key, then remaining aliases, first
present-and-truthy match winning; in particular, for a document
containing both a `name` key and a `title` key, the `name`-keyed value
is the one written to the record's `asset_name` field. -/
theorem C3_alias_precedence :
    ∀ (scene : Scene) (a b : String), a ≠ "" →
      (Except.map (fun p => p.1.metro_core.asset_name)
        (_apply_metro_dict scene [("name", .str a), ("title", .str b)])) = .ok a := by
  intro scene a b ha
  simp [_apply_metro_dict, _apply_core, _apply_provenance, _apply_access,
    _apply_lineage, _apply_technical, _apply_project, _set_step,
    _set_if, _set_enum, _set_tags, _set_int, dlookup, dmem,
    get2, acceptStr, acceptEnum, acceptIntProp, pyTruthy, pyStr, ha, enumIds,
    Except.map, Except.bind, bind, pure, Except.pure]

/-- C3 (witness): the precedence theorem at `name: "A"`, `title: "B"`. -/
theorem C3_witness :
    (Except.map (fun p => p.1.metro_core.asset_name)
      (_apply_metro_dict scene_default
        [("name", .str "A"), ("title", .str "B")])) = .ok "A" :=
  C3_alias_precedence scene_default "A" "B" (by decide)

/-- Auxiliary: a passing validator contributes no error. -/
theorem _check_pass (field : String) (p : Bool × String) (h : p.1 = true) :
    _check field p = [] := by
  rcases p with ⟨b, m⟩
  simp only at h
  subst h
  rfl

/-- Auxiliary: a failing validator contributes exactly its error. -/
theorem _check_fail (field : String) (p : Bool × String) (msg : String)
    (h : p = (false, msg)) : _check field p = [(field, msg)] := by
  subst h
  rfl

/-- C7: each single-violation record produces exactly one error naming
the violated field: a 101-character name (all other rules passing)
yields only the `name` error; 21 one-character tags (all other rules
passing) yield only the `tags` error; a lineageId of `"not-a-uuid"`
(all other rules passing) yields only the `lineageId` error. -/
theorem C7_single_violation_errors :
    (∀ scene : Scene, scene.metro_core.asset_name.length = 101 →
       (validate_description scene.metro_core.description).1 = true →
       (validate_tags scene.metro_core.tags).1 = true →
       (scene.metro_lineage.lineage_id = "" ∨
         is_valid_uuid scene.metro_lineage.lineage_id = true) →
       validate_metadata scene = [("name", "Name too long (101/100 characters)")]) ∧
    (∀ scene : Scene, (validate_name scene.metro_core.asset_name).1 = true →
       (validate_description scene.metro_core.description).1 = true →
       (parse_comma_list scene.metro_core.tags).length = 21 →
       (∀ t ∈ parse_comma_list scene.metro_core.tags, t.length = 1) →
       (scene.metro_lineage.lineage_id = "" ∨
         is_valid_uuid scene.metro_lineage.lineage_id = true) →
       validate_metadata scene = [("tags", "Too many tags (21/20)")]) ∧
    (∀ scene : Scene, (validate_name scene.metro_core.asset_name).1 = true →
       (validate_description scene.metro_core.description).1 = true →
       (validate_tags scene.metro_core.tags).1 = true →
       scene.metro_lineage.lineage_id = "not-a-uuid" →
       validate_metadata scene = [("lineageId", "Lineage ID must be a valid UUID v4")]) := by
  refine ⟨?_, ?_, ?_⟩
  · intro scene h101 hdesc htags hlin
    have hname : scene.metro_core.asset_name ≠ "" := by
      intro h
      rw [h] at h101
      exact absurd h101 (by decide)
    have h1 : validate_name scene.metro_core.asset_name =
        (false, "Name too long (101/100 characters)") := by
      unfold validate_name
      rw [if_neg hname, h101]
      decide
    have hno : ¬(scene.metro_lineage.lineage_id ≠ "" ∧
        is_valid_uuid scene.metro_lineage.lineage_id = false) := by
      rcases hlin with h | h
      · intro hc; exact hc.1 h
      · intro hc
        have hf := hc.2
        rw [h] at hf
        exact absurd hf (by decide)
    simp only [validate_metadata]
    rw [_check_fail _ _ _ h1, _check_pass _ _ hdesc, _check_pass _ _ htags, if_neg hno]
    rfl
  · intro scene hname hdesc h21 _hlen1 hlin
    have h3 : validate_tags scene.metro_core.tags = (false, "Too many tags (21/20)") := by
      simp only [validate_tags]
      rw [h21, if_pos (by decide : (21 : Nat) > 20)]
      rfl
    have hno : ¬(scene.metro_lineage.lineage_id ≠ "" ∧
        is_valid_uuid scene.metro_lineage.lineage_id = false) := by
      rcases hlin with h | h
      · intro hc; exact hc.1 h
      · intro hc
        have hf := hc.2
        rw [h] at hf
        exact absurd hf (by decide)
    simp only [validate_metadata]
    rw [_check_pass _ _ hname, _check_pass _ _ hdesc, _check_fail _ _ _ h3, if_neg hno]
    rfl
  · intro scene hname hdesc htags hlid
    simp only [validate_metadata]
    rw [_check_pass _ _ hname, _check_pass _ _ hdesc, _check_pass _ _ htags, hlid]
    rw [if_pos (by decide)]
    rfl

/-- C7 (witness): the three single-violation records, concretely — a
101-character name, 21 one-character tags with a valid name, and a
`"not-a-uuid"` lineage id with a valid name. -/
theorem C7_witness :
    validate_metadata { scene_default with metro_core :=
        { core_default with asset_name := String.mk (List.replicate 101 'a') } } =
      [("name", "Name too long (101/100 characters)")] ∧
    validate_metadata { scene_default with metro_core :=
        { core_default with asset_name := "a", tags := "a,a,a,a,a,a,a,a,a,a,a,a,a,a,a,a,a,a,a,a,a" } } =
      [("tags", "Too many tags (21/20)")] ∧
    validate_metadata { scene_default with
        metro_core := { core_default with asset_name := "a" },
        metro_lineage := { lineage_default with lineage_id := "not-a-uuid" } } =
      [("lineageId", "Lineage ID must be a valid UUID v4")] :=
  ⟨C7_single_violation_errors.1 _ (by decide) (by decide) (by decide) (Or.inl rfl),
   C7_single_violation_errors.2.1 _ (by decide) (by decide) (by decide) (by decide)
     (Or.inl rfl),
   C7_single_violation_errors.2.2 _ (by decide) (by decide) (by decide) rfl⟩

theorem dlookup_consIf (key : String) (c : Prop) [Decidable c] (k : String) (v : PyVal)
    (rest : List (String × PyVal)) :
    dlookup key (consIf c (k, v) rest) =
      if c then (if key = k then some v else dlookup key rest) else dlookup key rest := by
  by_cases h : c <;> simp [consIf, dlookup, h]

theorem dlookup_segIf (key : String) (c : Prop) [Decidable c] (k : String) (v : PyVal) :
    dlookup key (segIf c k v) =
      if c then (if key = k then some v else Option.none) else Option.none := by
  by_cases h : c <;> simp [segIf, dlookup, h]

theorem dlookup_append (key : String) (l1 l2 : List (String × PyVal)) :
    dlookup key (l1 ++ l2) = match dlookup key l1 with
      | some v => some v
      | Option.none => dlookup key l2 := by
  induction l1 with
  | nil => rfl
  | cons hd tl ih =>
    obtain ⟨k, v⟩ := hd
    by_cases h : key = k <;> simp [dlookup, h, ih]

theorem dlookup_mime_seg (key af : String) (hk : key ≠ "encodingFormat") :
    dlookup key (match slookup af FORMAT_TO_MIME with
      | some mime => [("encodingFormat", PyVal.str mime)]
      | Option.none => []) = Option.none := by
  rcases slookup af FORMAT_TO_MIME with _ | mime <;> simp [dlookup, hk]
theorem set_if_name_collect (f : String → Option PyVal) (s : Scene) :
    _set_if (collect_fields f s) ["name", "asset_name", "title"] acceptStr =
      if s.metro_core.asset_name ≠ "" then some s.metro_core.asset_name
      else Option.none := by
  unfold collect_fields
  by_cases h : s.metro_core.asset_name = "" <;>
    simp only [_set_if, _set_enum, _set_int, _set_tags, dlookup_consIf, dlookup, dlookup_mime_seg,
      acceptStr, acceptEnum, acceptIntProp, pyTruthy, pyStr, pyInt, ne_eq,
      not_false_eq_true, not_true_eq_false, ite_self, decide_eq_true_eq,
      String.reduceEq, reduceIte, ite_true, ite_false, decide_True, decide_False,
      decide_not, not_not, if_true, if_false, and_true, and_false, true_and,
      false_and, and_self, Bool.false_eq_true, Bool.true_eq_false, h]

theorem set_if_description_collect (f : String → Option PyVal) (s : Scene) :
    _set_if (collect_fields f s) ["description"] acceptStr =
      if s.metro_core.description ≠ "" then some s.metro_core.description
      else Option.none := by
  unfold collect_fields
  by_cases h : s.metro_core.description = "" <;>
    simp only [_set_if, _set_enum, _set_int, _set_tags, dlookup_consIf, dlookup, dlookup_mime_seg,
      acceptStr, acceptEnum, acceptIntProp, pyTruthy, pyStr, pyInt, ne_eq,
      not_false_eq_true, not_true_eq_false, ite_self, decide_eq_true_eq,
      String.reduceEq, reduceIte, ite_true, ite_false, decide_True, decide_False,
      decide_not, not_not, if_true, if_false, and_true, and_false, true_and,
      false_and, and_self, Bool.false_eq_true, Bool.true_eq_false, h]

theorem set_if_lineage_id_collect (f : String → Option PyVal) (s : Scene) :
    _set_if (collect_fields f s) ["lineageId", "lineage_id"] acceptStr =
      if s.metro_lineage.lineage_id ≠ "" then some s.metro_lineage.lineage_id
      else Option.none := by
  unfold collect_fields
  by_cases h : s.metro_lineage.lineage_id = "" <;>
    simp only [_set_if, _set_enum, _set_int, _set_tags, dlookup_consIf, dlookup, dlookup_mime_seg,
      acceptStr, acceptEnum, acceptIntProp, pyTruthy, pyStr, pyInt, ne_eq,
      not_false_eq_true, not_true_eq_false, ite_self, decide_eq_true_eq,
      String.reduceEq, reduceIte, ite_true, ite_false, decide_True, decide_False,
      decide_not, not_not, if_true, if_false, and_true, and_false, true_and,
      false_and, and_self, Bool.false_eq_true, Bool.true_eq_false, h]

theorem set_if_scientific_collect (f : String → Option PyVal) (s : Scene) :
    _set_if (collect_fields f s) ["scientificDomain", "scientific_domain"] acceptStr =
      if s.metro_technical.scientific_domain ≠ "" then some s.metro_technical.scientific_domain
      else Option.none := by
  unfold collect_fields
  by_cases h : s.metro_technical.scientific_domain = "" <;>
    simp only [_set_if, _set_enum, _set_int, _set_tags, dlookup_consIf, dlookup, dlookup_mime_seg,
      acceptStr, acceptEnum, acceptIntProp, pyTruthy, pyStr, pyInt, ne_eq,
      not_false_eq_true, not_true_eq_false, ite_self, decide_eq_true_eq,
      String.reduceEq, reduceIte, ite_true, ite_false, decide_True, decide_False,
      decide_not, not_not, if_true, if_false, and_true, and_false, true_and,
      false_and, and_self, Bool.false_eq_true, Bool.true_eq_false, h]

theorem set_if_sdf_collect (f : String → Option PyVal) (s : Scene) :
    _set_if (collect_fields f s) ["sourceDataFormat", "source_data_format"] acceptStr =
      if s.metro_technical.source_data_format ≠ "" then some s.metro_technical.source_data_format
      else Option.none := by
  unfold collect_fields
  by_cases h : s.metro_technical.source_data_format = "" <;>
    simp only [_set_if, _set_enum, _set_int, _set_tags, dlookup_consIf, dlookup, dlookup_mime_seg,
      acceptStr, acceptEnum, acceptIntProp, pyTruthy, pyStr, pyInt, ne_eq,
      not_false_eq_true, not_true_eq_false, ite_self, decide_eq_true_eq,
      String.reduceEq, reduceIte, ite_true, ite_false, decide_True, decide_False,
      decide_not, not_not, if_true, if_false, and_true, and_false, true_and,
      false_and, and_self, Bool.false_eq_true, Bool.true_eq_false, h]

theorem set_if_usage_constraints_collect (f : String → Option PyVal) (s : Scene) :
    _set_if (collect_fields f s) ["usageConstraints", "usage_constraints"] acceptStr =
      if s.metro_project.usage_constraints ≠ "" then some s.metro_project.usage_constraints
      else Option.none := by
  unfold collect_fields
  by_cases h : s.metro_project.usage_constraints = "" <;>
    simp only [_set_if, _set_enum, _set_int, _set_tags, dlookup_consIf, dlookup, dlookup_mime_seg,
      acceptStr, acceptEnum, acceptIntProp, pyTruthy, pyStr, pyInt, ne_eq,
      not_false_eq_true, not_true_eq_false, ite_self, decide_eq_true_eq,
      String.reduceEq, reduceIte, ite_true, ite_false, decide_True, decide_False,
      decide_not, not_not, if_true, if_false, and_true, and_false, true_and,
      false_and, and_self, Bool.false_eq_true, Bool.true_eq_false, h]

theorem set_if_deployment_notes_collect (f : String → Option PyVal) (s : Scene) :
    _set_if (collect_fields f s) ["deploymentNotes", "deployment_notes"] acceptStr =
      if s.metro_project.deployment_notes ≠ "" then some s.metro_project.deployment_notes
      else Option.none := by
  unfold collect_fields
  by_cases h : s.metro_project.deployment_notes = "" <;>
    simp only [_set_if, _set_enum, _set_int, _set_tags, dlookup_consIf, dlookup, dlookup_mime_seg,
      acceptStr, acceptEnum, acceptIntProp, pyTruthy, pyStr, pyInt, ne_eq,
      not_false_eq_true, not_true_eq_false, ite_self, decide_eq_true_eq,
      String.reduceEq, reduceIte, ite_true, ite_false, decide_True, decide_False,
      decide_not, not_not, if_true, if_false, and_true, and_false, true_and,
      false_and, and_self, Bool.false_eq_true, Bool.true_eq_false, h]

theorem set_if_prov_tool_collect (f : String → Option PyVal) (s : Scene) :
    _set_if (collect_fields f s) ["provenance_tool", "generatedWith"] acceptStr =
      Option.none := by
  unfold collect_fields
  simp only [_set_if, _set_enum, _set_int, _set_tags, dlookup_consIf, dlookup, dlookup_mime_seg,
      acceptStr, acceptEnum, acceptIntProp, pyTruthy, pyStr, pyInt, ne_eq,
      not_false_eq_true, not_true_eq_false, ite_self, decide_eq_true_eq,
      String.reduceEq, reduceIte, ite_true, ite_false, decide_True, decide_False,
      decide_not, not_not, if_true, if_false, and_true, and_false, true_and,
      false_and, and_self, Bool.false_eq_true, Bool.true_eq_false]

theorem set_if_int_prop_none (data : List (String × PyVal)) (keys : List String) :
    _set_if data keys acceptIntProp = Option.none := by
  induction keys with
  | nil => rfl
  | cons k ks ih =>
    cases h : dlookup k data with
    | none => simp only [_set_if, h, ih]
    | some v => simp only [_set_if, h, acceptIntProp, ih, ite_self]

theorem set_enum_access_level_collect (f : String → Option PyVal) (s : Scene) :
    _set_enum (collect_fields f s) ["accessLevel", "access_level"]
      (enumIds ACCESS_LEVEL_ITEMS) =
      if s.metro_access.access_level ≠ "" ∧
          (enumIds ACCESS_LEVEL_ITEMS).contains s.metro_access.access_level = true then
        some s.metro_access.access_level
      else Option.none := by
  unfold collect_fields
  by_cases h1 : s.metro_access.access_level = "" <;>
  by_cases h2 : (enumIds ACCESS_LEVEL_ITEMS).contains s.metro_access.access_level = true <;>
    simp only [_set_if, _set_enum, _set_int, _set_tags, dlookup_consIf, dlookup, dlookup_mime_seg,
      acceptStr, acceptEnum, acceptIntProp, pyTruthy, pyStr, pyInt, ne_eq,
      not_false_eq_true, not_true_eq_false, ite_self, decide_eq_true_eq,
      String.reduceEq, reduceIte, ite_true, ite_false, decide_True, decide_False,
      decide_not, not_not, if_true, if_false, and_true, and_false, true_and,
      false_and, and_self, Bool.false_eq_true, Bool.true_eq_false, h1, h2]

theorem set_enum_use_case_collect (f : String → Option PyVal) (s : Scene) :
    _set_enum (collect_fields f s) ["useCase", "use_case"] (enumIds USE_CASE_ITEMS) =
      if s.metro_core.use_case ≠ "NONE" ∧ s.metro_core.use_case ≠ "" ∧
          (enumIds USE_CASE_ITEMS).contains s.metro_core.use_case = true then
        some s.metro_core.use_case
      else Option.none := by
  unfold collect_fields
  by_cases h0 : s.metro_core.use_case = "NONE"
  · simp only [_set_if, _set_enum, _set_int, _set_tags, dlookup_consIf, dlookup, dlookup_mime_seg,
      acceptStr, acceptEnum, acceptIntProp, pyTruthy, pyStr, pyInt, ne_eq,
      not_false_eq_true, not_true_eq_false, ite_self, decide_eq_true_eq,
      String.reduceEq, reduceIte, ite_true, ite_false, decide_True, decide_False,
      decide_not, not_not, if_true, if_false, and_true, and_false, true_and,
      false_and, and_self, Bool.false_eq_true, Bool.true_eq_false, h0]
  · by_cases h1 : s.metro_core.use_case = "" <;>
    by_cases h2 : (enumIds USE_CASE_ITEMS).contains s.metro_core.use_case = true <;>
      simp only [_set_if, _set_enum, _set_int, _set_tags, dlookup_consIf, dlookup, dlookup_mime_seg,
      acceptStr, acceptEnum, acceptIntProp, pyTruthy, pyStr, pyInt, ne_eq,
      not_false_eq_true, not_true_eq_false, ite_self, decide_eq_true_eq,
      String.reduceEq, reduceIte, ite_true, ite_false, decide_True, decide_False,
      decide_not, not_not, if_true, if_false, and_true, and_false, true_and,
      false_and, and_self, Bool.false_eq_true, Bool.true_eq_false, h0, h1, h2]

theorem set_enum_phase_collect (f : String → Option PyVal) (s : Scene) :
    _set_enum (collect_fields f s) ["projectPhase", "project_phase"] (enumIds PROJECT_PHASE_ITEMS) =
      if s.metro_project.project_phase ≠ "NONE" ∧ s.metro_project.project_phase ≠ "" ∧
          (enumIds PROJECT_PHASE_ITEMS).contains s.metro_project.project_phase = true then
        some s.metro_project.project_phase
      else Option.none := by
  unfold collect_fields
  by_cases h0 : s.metro_project.project_phase = "NONE"
  · simp only [_set_if, _set_enum, _set_int, _set_tags, dlookup_consIf, dlookup, dlookup_mime_seg,
      acceptStr, acceptEnum, acceptIntProp, pyTruthy, pyStr, pyInt, ne_eq,
      not_false_eq_true, not_true_eq_false, ite_self, decide_eq_true_eq,
      String.reduceEq, reduceIte, ite_true, ite_false, decide_True, decide_False,
      decide_not, not_not, if_true, if_false, and_true, and_false, true_and,
      false_and, and_self, Bool.false_eq_true, Bool.true_eq_false, h0]
  · by_cases h1 : s.metro_project.project_phase = "" <;>
    by_cases h2 : (enumIds PROJECT_PHASE_ITEMS).contains s.metro_project.project_phase = true <;>
      simp only [_set_if, _set_enum, _set_int, _set_tags, dlookup_consIf, dlookup, dlookup_mime_seg,
      acceptStr, acceptEnum, acceptIntProp, pyTruthy, pyStr, pyInt, ne_eq,
      not_false_eq_true, not_true_eq_false, ite_self, decide_eq_true_eq,
      String.reduceEq, reduceIte, ite_true, ite_false, decide_True, decide_False,
      decide_not, not_not, if_true, if_false, and_true, and_false, true_and,
      false_and, and_self, Bool.false_eq_true, Bool.true_eq_false, h0, h1, h2]

theorem set_if_license_collect (f : String → Option PyVal) (s : Scene) :
    _set_if (collect_fields f s) ["license"] (acceptEnum (enumIds LICENSE_ITEMS)) =
      if s.metro_access.license ≠ "NONE" ∧ s.metro_access.license ≠ "" ∧
          (enumIds LICENSE_ITEMS).contains s.metro_access.license = true then
        some s.metro_access.license
      else Option.none := by
  unfold collect_fields
  by_cases h0 : s.metro_access.license = "NONE"
  · simp only [_set_if, _set_enum, _set_int, _set_tags, dlookup_consIf, dlookup, dlookup_mime_seg,
      acceptStr, acceptEnum, acceptIntProp, pyTruthy, pyStr, pyInt, ne_eq,
      not_false_eq_true, not_true_eq_false, ite_self, decide_eq_true_eq,
      String.reduceEq, reduceIte, ite_true, ite_false, decide_True, decide_False,
      decide_not, not_not, if_true, if_false, and_true, and_false, true_and,
      false_and, and_self, Bool.false_eq_true, Bool.true_eq_false, h0]
  · by_cases h1 : s.metro_access.license = "" <;>
    by_cases h2 : (enumIds LICENSE_ITEMS).contains s.metro_access.license = true <;>
      simp only [_set_if, _set_enum, _set_int, _set_tags, dlookup_consIf, dlookup, dlookup_mime_seg,
      acceptStr, acceptEnum, acceptIntProp, pyTruthy, pyStr, pyInt, ne_eq,
      not_false_eq_true, not_true_eq_false, ite_self, decide_eq_true_eq,
      String.reduceEq, reduceIte, ite_true, ite_false, decide_True, decide_False,
      decide_not, not_not, if_true, if_false, and_true, and_false, true_and,
      false_and, and_self, Bool.false_eq_true, Bool.true_eq_false, h0, h1, h2]

theorem set_int_vertex_collect (f : String → Option PyVal) (s : Scene) :
    _set_int (collect_fields f s) ["vertexCount", "vertex_count"] = Option.none := by
  unfold collect_fields
  simp only [_set_if, _set_enum, _set_int, _set_tags, dlookup_consIf, dlookup, dlookup_mime_seg,
      acceptStr, acceptEnum, acceptIntProp, pyTruthy, pyStr, pyInt, ne_eq,
      not_false_eq_true, not_true_eq_false, ite_self, decide_eq_true_eq,
      String.reduceEq, reduceIte, ite_true, ite_false, decide_True, decide_False,
      decide_not, not_not, if_true, if_false, and_true, and_false, true_and,
      false_and, and_self, Bool.false_eq_true, Bool.true_eq_false]

theorem set_int_lod_collect (f : String → Option PyVal) (s : Scene) :
    _set_int (collect_fields f s) ["lodLevels", "lod_levels"] =
      if s.metro_technical.lod_levels > 0 then some s.metro_technical.lod_levels
      else Option.none := by
  unfold collect_fields
  by_cases h : s.metro_technical.lod_levels > 0 <;>
    simp only [_set_if, _set_enum, _set_int, _set_tags, dlookup_consIf, dlookup, dlookup_mime_seg,
      acceptStr, acceptEnum, acceptIntProp, pyTruthy, pyStr, pyInt, ne_eq,
      not_false_eq_true, not_true_eq_false, ite_self, decide_eq_true_eq,
      String.reduceEq, reduceIte, ite_true, ite_false, decide_True, decide_False,
      decide_not, not_not, if_true, if_false, and_true, and_false, true_and,
      false_and, and_self, Bool.false_eq_true, Bool.true_eq_false, h]

theorem map_pyStr_str (l : List String) : List.map (pyStr ∘ PyVal.str) l = l := by
  induction l with
  | nil => rfl
  | cons a as ih => simp [pyStr, ih, Function.comp]

theorem map_pyStr_str2 (l : List String) : List.map (fun t => pyStr (PyVal.str t)) l = l := by
  induction l with
  | nil => rfl
  | cons a as ih => simp [pyStr, ih]

theorem set_tags_collect (f : String → Option PyVal) (s : Scene) :
    _set_tags (collect_fields f s) ["tags", "keywords", "dcat:keyword"] =
      if pyStrip s.metro_core.tags ≠ "" ∧ _split_strip s.metro_core.tags ≠ [] then
        some (pyJoin ", " (_split_strip s.metro_core.tags))
      else Option.none := by
  unfold collect_fields
  by_cases h1 : pyStrip s.metro_core.tags = ""
  · simp only [_set_if, _set_enum, _set_int, _set_tags, dlookup_consIf, dlookup, dlookup_mime_seg,
      acceptStr, acceptEnum, acceptIntProp, pyTruthy, pyStr, pyInt, ne_eq,
      not_false_eq_true, not_true_eq_false, ite_self, decide_eq_true_eq,
      String.reduceEq, reduceIte, ite_true, ite_false, decide_True, decide_False,
      decide_not, not_not, if_true, if_false, and_true, and_false, true_and,
      false_and, and_self, Bool.false_eq_true, Bool.true_eq_false, h1]
  · rcases hp : _split_strip s.metro_core.tags with _ | ⟨p, ps⟩ <;>
      simp only [_set_if, _set_enum, _set_int, _set_tags, dlookup_consIf, dlookup, dlookup_mime_seg,
      acceptStr, acceptEnum, acceptIntProp, pyTruthy, pyStr, pyInt, ne_eq,
      not_false_eq_true, not_true_eq_false, ite_self, decide_eq_true_eq,
      String.reduceEq, reduceIte, ite_true, ite_false, decide_True, decide_False,
      decide_not, not_not, if_true, if_false, and_true, and_false, true_and,
      false_and, and_self, Bool.false_eq_true, Bool.true_eq_false, h1, hp, List.map_map, List.map, List.isEmpty_cons,
        List.isEmpty_nil, Bool.not_true, Bool.not_false, Function.comp,
        List.map_id, reduceCtorEq, not_false_eq_true, List.cons_ne_self,
        map_pyStr_str, map_pyStr_str2]

theorem dl_provenance_collect (f : String → Option PyVal) (s : Scene) :
    dlookup "provenance" (collect_fields f s) =
      if (_prov_dict s.metro_provenance).isEmpty = false then
        some (.dict (_prov_dict s.metro_provenance))
      else Option.none := by
  unfold collect_fields
  by_cases h : (_prov_dict s.metro_provenance).isEmpty = false <;>
    simp only [_set_if, _set_enum, _set_int, _set_tags, dlookup_consIf, dlookup, dlookup_mime_seg,
      acceptStr, acceptEnum, acceptIntProp, pyTruthy, pyStr, pyInt, ne_eq,
      not_false_eq_true, not_true_eq_false, ite_self, decide_eq_true_eq,
      String.reduceEq, reduceIte, ite_true, ite_false, decide_True, decide_False,
      decide_not, not_not, if_true, if_false, and_true, and_false, true_and,
      false_and, and_self, Bool.false_eq_true, Bool.true_eq_false, h]

theorem dl_attrib_collect (f : String → Option PyVal) (s : Scene) :
    dlookup "attributionRequired" (collect_fields f s) =
      some (.bool s.metro_access.attribution_required) := by
  unfold collect_fields
  simp only [_set_if, _set_enum, _set_int, _set_tags, dlookup_consIf, dlookup, dlookup_mime_seg,
      acceptStr, acceptEnum, acceptIntProp, pyTruthy, pyStr, pyInt, ne_eq,
      not_false_eq_true, not_true_eq_false, ite_self, decide_eq_true_eq,
      String.reduceEq, reduceIte, ite_true, ite_false, decide_True, decide_False,
      decide_not, not_not, if_true, if_false, and_true, and_false, true_and,
      false_and, and_self, Bool.false_eq_true, Bool.true_eq_false]

theorem dl_attrib_snake_collect (f : String → Option PyVal) (s : Scene) :
    dlookup "attribution_required" (collect_fields f s) = Option.none := by
  unfold collect_fields
  simp only [_set_if, _set_enum, _set_int, _set_tags, dlookup_consIf, dlookup, dlookup_mime_seg,
      acceptStr, acceptEnum, acceptIntProp, pyTruthy, pyStr, pyInt, ne_eq,
      not_false_eq_true, not_true_eq_false, ite_self, decide_eq_true_eq,
      String.reduceEq, reduceIte, ite_true, ite_false, decide_True, decide_False,
      decide_not, not_not, if_true, if_false, and_true, and_false, true_and,
      false_and, and_self, Bool.false_eq_true, Bool.true_eq_false]

theorem dl_derived_collect (f : String → Option PyVal) (s : Scene) :
    dlookup "derivedFromAsset" (collect_fields f s) =
      if pyStrip s.metro_lineage.derived_from_asset ≠ "" then
        some (let uris := _split_strip s.metro_lineage.derived_from_asset
              if uris.length > 1 then .list (uris.map .str) else .str (uris.headD ""))
      else Option.none := by
  unfold collect_fields
  by_cases h : pyStrip s.metro_lineage.derived_from_asset = "" <;>
    simp only [_set_if, _set_enum, _set_int, _set_tags, dlookup_consIf, dlookup, dlookup_mime_seg,
      acceptStr, acceptEnum, acceptIntProp, pyTruthy, pyStr, pyInt, ne_eq,
      not_false_eq_true, not_true_eq_false, ite_self, decide_eq_true_eq,
      String.reduceEq, reduceIte, ite_true, ite_false, decide_True, decide_False,
      decide_not, not_not, if_true, if_false, and_true, and_false, true_and,
      false_and, and_self, Bool.false_eq_true, Bool.true_eq_false, h]

theorem dl_derived_snake_collect (f : String → Option PyVal) (s : Scene) :
    dlookup "derived_from_asset" (collect_fields f s) = Option.none := by
  unfold collect_fields
  simp only [_set_if, _set_enum, _set_int, _set_tags, dlookup_consIf, dlookup, dlookup_mime_seg,
      acceptStr, acceptEnum, acceptIntProp, pyTruthy, pyStr, pyInt, ne_eq,
      not_false_eq_true, not_true_eq_false, ite_self, decide_eq_true_eq,
      String.reduceEq, reduceIte, ite_true, ite_false, decide_True, decide_False,
      decide_not, not_not, if_true, if_false, and_true, and_false, true_and,
      false_and, and_self, Bool.false_eq_true, Bool.true_eq_false]

theorem dl_bb_collect (f : String → Option PyVal) (s : Scene) :
    dlookup "boundingBox" (collect_fields f s) =
      if s.metro_technical.bounding_box_x > 0 ∨ s.metro_technical.bounding_box_y > 0 ∨
          s.metro_technical.bounding_box_z > 0 then
        some (.dict [("x", .float (round4 s.metro_technical.bounding_box_x)),
                     ("y", .float (round4 s.metro_technical.bounding_box_y)),
                     ("z", .float (round4 s.metro_technical.bounding_box_z))])
      else Option.none := by
  unfold collect_fields
  by_cases h : s.metro_technical.bounding_box_x > 0 ∨ s.metro_technical.bounding_box_y > 0 ∨
      s.metro_technical.bounding_box_z > 0 <;>
    simp only [_set_if, _set_enum, _set_int, _set_tags, dlookup_consIf, dlookup, dlookup_mime_seg,
      acceptStr, acceptEnum, acceptIntProp, pyTruthy, pyStr, pyInt, ne_eq,
      not_false_eq_true, not_true_eq_false, ite_self, decide_eq_true_eq,
      String.reduceEq, reduceIte, ite_true, ite_false, decide_True, decide_False,
      decide_not, not_not, if_true, if_false, and_true, and_false, true_and,
      false_and, and_self, Bool.false_eq_true, Bool.true_eq_false, h]

theorem dl_mp_collect (f : String → Option PyVal) (s : Scene) :
    dlookup "materialProperties" (collect_fields f s) =
      if s.metro_technical.material_count > 0 ∨ s.metro_technical.has_textures = true ∨
          s.metro_technical.supports_pbr = true then
        some (.dict [("materialCount", .int s.metro_technical.material_count),
                     ("hasTextures", .bool s.metro_technical.has_textures),
                     ("supportsPBR", .bool s.metro_technical.supports_pbr)])
      else Option.none := by
  unfold collect_fields
  by_cases h : s.metro_technical.material_count > 0 ∨ s.metro_technical.has_textures = true ∨
      s.metro_technical.supports_pbr = true <;>
    simp only [_set_if, _set_enum, _set_int, _set_tags, dlookup_consIf, dlookup, dlookup_mime_seg,
      acceptStr, acceptEnum, acceptIntProp, pyTruthy, pyStr, pyInt, ne_eq,
      not_false_eq_true, not_true_eq_false, ite_self, decide_eq_true_eq,
      String.reduceEq, reduceIte, ite_true, ite_false, decide_True, decide_False,
      decide_not, not_not, if_true, if_false, and_true, and_false, true_and,
      false_and, and_self, Bool.false_eq_true, Bool.true_eq_false, h]

theorem dl_vc_collect (f : String → Option PyVal) (s : Scene) :
    dlookup "visualizationCapabilities" (collect_fields f s) =
      if s.metro_project.supports_vr = true ∨ s.metro_project.supports_ar = true then
        some (.dict [("supportsVR", .bool s.metro_project.supports_vr),
                     ("supportsAR", .bool s.metro_project.supports_ar)])
      else Option.none := by
  unfold collect_fields
  by_cases h : s.metro_project.supports_vr = true ∨ s.metro_project.supports_ar = true <;>
    simp only [_set_if, _set_enum, _set_int, _set_tags, dlookup_consIf, dlookup, dlookup_mime_seg,
      acceptStr, acceptEnum, acceptIntProp, pyTruthy, pyStr, pyInt, ne_eq,
      not_false_eq_true, not_true_eq_false, ite_self, decide_eq_true_eq,
      String.reduceEq, reduceIte, ite_true, ite_false, decide_True, decide_False,
      decide_not, not_not, if_true, if_false, and_true, and_false, true_and,
      false_and, and_self, Bool.false_eq_true, Bool.true_eq_false, h]

theorem dl_prov_tool (prov : METRO_PG_ProvenanceMetadata) :
    dlookup "tool" (_prov_dict prov) =
      if prov.provenance_tool ≠ "" then some (.str prov.provenance_tool)
      else Option.none := by
  unfold _prov_dict
  by_cases h : prov.provenance_tool = "" <;>
    simp only [dlookup_append, dlookup_segIf, dlookup, h, ne_eq, not_false_eq_true,
      not_true_eq_false, ite_self, String.reduceEq, reduceIte, ite_true, ite_false]

theorem dl_prov_src (prov : METRO_PG_ProvenanceMetadata) :
    dlookup "sourceData" (_prov_dict prov) =
      if pyStrip prov.provenance_source_data ≠ "" then
        some (.list ((_split_strip prov.provenance_source_data).map .str))
      else Option.none := by
  unfold _prov_dict
  by_cases h : pyStrip prov.provenance_source_data = "" <;>
    simp only [dlookup_append, dlookup_segIf, dlookup, h, ne_eq, not_false_eq_true,
      not_true_eq_false, ite_self, String.reduceEq, reduceIte, ite_true, ite_false]

theorem parse_comma_list_eq (s : String) : parse_comma_list s = _split_strip s := by
  by_cases h : s = ""
  · subst h; rfl
  · simp [parse_comma_list, h]

theorem mem_split_strip_ne (s t : String) (h : t ∈ _split_strip s) : t ≠ "" := by
  have := List.of_mem_filter h
  simpa using this

theorem set_if_format_collect (f : String → Option PyVal) (s : Scene) :
    _set_if (collect_fields f s) ["format", "asset_format"]
      (acceptEnum (enumIds ASSET_FORMAT_ITEMS)) =
      if s.metro_core.asset_format ≠ "" ∧
          (enumIds ASSET_FORMAT_ITEMS).contains s.metro_core.asset_format = true then
        some s.metro_core.asset_format
      else Option.none := by
  unfold collect_fields
  by_cases h1 : s.metro_core.asset_format = "" <;>
  by_cases h2 : (enumIds ASSET_FORMAT_ITEMS).contains s.metro_core.asset_format = true <;>
    simp only [_set_if, _set_enum, _set_int, _set_tags, dlookup_consIf, dlookup, dlookup_mime_seg,
      acceptStr, acceptEnum, acceptIntProp, pyTruthy, pyStr, pyInt, ne_eq,
      not_false_eq_true, not_true_eq_false, ite_self, decide_eq_true_eq,
      String.reduceEq, reduceIte, ite_true, ite_false, decide_True, decide_False,
      decide_not, not_not, if_true, if_false, and_true, and_false, true_and,
      false_and, and_self, Bool.false_eq_true, Bool.true_eq_false, h1, h2]

theorem pyJoin_single (u : String) : pyJoin ", " [u] = u := rfl

theorem apply_core_collect (f : String → Option PyVal) (s : Scene)
    (hname : s.metro_core.asset_name ≠ "")
    (htags : s.metro_core.tags = pyJoin ", " (_split_strip s.metro_core.tags)) :
    (_apply_core (collect_fields f s) s.metro_core).1 = s.metro_core := by
  unfold _apply_core
  rw [set_if_name_collect, set_if_description_collect, set_if_format_collect,
    set_if_int_prop_none, set_tags_collect, set_enum_use_case_collect,
    if_pos hname]
  split_ifs <;> simp only [_set_step] <;> first | rfl | (rw [← htags]; try rfl)

theorem apply_provenance_collect (f : String → Option PyVal) (s : Scene)
    (hpsd : s.metro_provenance.provenance_source_data =
      pyJoin ", " (_split_strip s.metro_provenance.provenance_source_data)) :
    (_apply_provenance (collect_fields f s) s.metro_provenance).1 = s.metro_provenance := by
  unfold _apply_provenance
  rw [set_if_prov_tool_collect, dl_provenance_collect]
  by_cases h : (_prov_dict s.metro_provenance).isEmpty = false
  · rw [if_pos h]
    simp only [_set_step, dl_prov_tool, dl_prov_src]
    split_ifs <;>
      simp only [pyStr, map_pyStr_str, map_pyStr_str2, List.map_map] <;>
      first | rfl | (rw [← hpsd]; try rfl)
  · rw [if_neg h]
    rfl

theorem apply_access_collect (f : String → Option PyVal) (s : Scene) :
    (_apply_access (collect_fields f s) s.metro_access).1 = s.metro_access := by
  unfold _apply_access
  rw [set_enum_access_level_collect, set_if_license_collect]
  have h1 : dmem "attributionRequired" (collect_fields f s) = true := by
    rw [dmem, dl_attrib_collect]; rfl
  simp only [_set_step, h1, Bool.true_or, if_true, ite_true, get2, dl_attrib_collect,
    Option.getD, pyTruthy, eq_self_iff_true]
  split_ifs <;> rfl

theorem apply_lineage_collect (f : String → Option PyVal) (s : Scene)
    (hdas : s.metro_lineage.derived_from_asset =
      pyJoin ", " (_split_strip s.metro_lineage.derived_from_asset)) :
    (_apply_lineage (collect_fields f s) s.metro_lineage).1 = s.metro_lineage := by
  unfold _apply_lineage
  rw [set_if_lineage_id_collect]
  by_cases h : pyStrip s.metro_lineage.derived_from_asset = ""
  · have hd1 : dmem "derivedFromAsset" (collect_fields f s) = false := by
      rw [dmem, dl_derived_collect]; simp [h]
    have hd2 : dmem "derived_from_asset" (collect_fields f s) = false := by
      rw [dmem, dl_derived_snake_collect]; rfl
    simp only [_set_step, hd1, hd2, Bool.or_self, if_false, ite_false, Bool.false_eq_true]
    split_ifs <;> rfl
  · have hne : s.metro_lineage.derived_from_asset ≠ "" := fun h0 => h (by rw [h0]; rfl)
    have huris : _split_strip s.metro_lineage.derived_from_asset ≠ [] := by
      intro h0
      rw [h0] at hdas
      exact hne (by rw [hdas]; rfl)
    have hmem : dmem "derivedFromAsset" (collect_fields f s) = true := by
      rw [dmem, dl_derived_collect, if_pos h]; rfl
    have hval : get2 (collect_fields f s) "derivedFromAsset" "derived_from_asset" =
        (let uris := _split_strip s.metro_lineage.derived_from_asset
         if uris.length > 1 then PyVal.list (uris.map .str)
         else PyVal.str (uris.headD "")) := by
      rw [get2, dl_derived_collect, if_pos h]; rfl
    rcases hu : _split_strip s.metro_lineage.derived_from_asset with _ | ⟨u, us⟩
    · exact absurd hu huris
    · rcases us with _ | ⟨u2, us2⟩
      · have hu_mem : u ∈ _split_strip s.metro_lineage.derived_from_asset := by
          rw [hu]; exact List.mem_cons_self _ _
        have hu_ne : u ≠ "" := mem_split_strip_ne _ u hu_mem
        have h2 : s.metro_lineage.derived_from_asset = u := by
          rw [hdas, hu, pyJoin_single]
        rw [hu] at hval
        simp only [_set_step, hmem, hval, Bool.true_or, if_true, ite_true,
          List.length_cons, List.length_nil, List.headD_cons, Nat.lt_irrefl,
          gt_iff_lt, reduceIte, pyTruthy, pyStr, hu_ne, ne_eq, not_false_eq_true,
          decide_True, decide_eq_true_eq]
        rw [← h2]
        split_ifs <;> rfl
      · have h2 : s.metro_lineage.derived_from_asset = pyJoin ", " (u :: u2 :: us2) := by
          rw [hdas, hu]
        rw [hu] at hval
        simp only [_set_step, hmem, hval, Bool.true_or, if_true, ite_true,
          List.length_cons, gt_iff_lt, reduceIte, map_pyStr_str, map_pyStr_str2,
          List.map_map, Nat.lt_add_one, Nat.succ_lt_succ_iff, Nat.zero_lt_succ]
        rw [← h2]
        split_ifs <;> rfl

theorem apply_technical_collect (f : String → Option PyVal) (s : Scene)
    (hbx : round4 s.metro_technical.bounding_box_x = s.metro_technical.bounding_box_x)
    (hby : round4 s.metro_technical.bounding_box_y = s.metro_technical.bounding_box_y)
    (hbz : round4 s.metro_technical.bounding_box_z = s.metro_technical.bounding_box_z) :
    Except.map Prod.fst (_apply_technical (collect_fields f s) s.metro_technical) =
      .ok s.metro_technical := by
  unfold _apply_technical
  rw [set_int_vertex_collect, set_int_lod_collect, set_if_scientific_collect,
    set_if_sdf_collect, dl_bb_collect, dl_mp_collect]
  split_ifs <;>
    simp only [_set_step, hbx, hby, hbz, pyFloat, pyIntCoerce, pyInt, dlookup,
      Option.getD, pyTruthy, bind, Except.bind, Except.map, pure, Except.pure,
      String.reduceEq, reduceIte, if_true, if_false, ite_true, ite_false] <;>
    rfl

theorem apply_project_collect (f : String → Option PyVal) (s : Scene) :
    (_apply_project (collect_fields f s) s.metro_project).1 = s.metro_project := by
  unfold _apply_project
  rw [set_enum_phase_collect, set_if_usage_constraints_collect,
    set_if_deployment_notes_collect, dl_vc_collect]
  split_ifs <;>
    simp only [_set_step, pyTruthy, dlookup, Option.getD, String.reduceEq,
      reduceIte, ite_true, ite_false, if_true, if_false] <;>
    rfl

theorem validate_name_ne (s : Scene) (hv : validate_metadata s = []) :
    s.metro_core.asset_name ≠ "" := by
  intro h0
  simp [validate_metadata, h0, validate_name, _check] at hv

/-- C4 (amended): `apply(record, collect(record))` leaves the record
unchanged for every record that passed validation AND whose
comma-list-valued string fields (`tags`, `provenance_source_data`,
`derived_from_asset`) are already in the canonical ", "-joined trimmed
form, and whose bounding-box dimensions are fixed points of 4-decimal
rounding.  (The Applier normalizes list-valued fields and the Collector
rounds the bounding box, so idempotence needs those fields already
normalized; validation alone does not guarantee that.) -/
theorem C4_idempotence :
    ∀ (f : String → Option PyVal) (s : Scene),
      validate_metadata s = [] →
      s.metro_core.tags = pyJoin ", " (parse_comma_list s.metro_core.tags) →
      s.metro_provenance.provenance_source_data =
        pyJoin ", " (parse_comma_list s.metro_provenance.provenance_source_data) →
      s.metro_lineage.derived_from_asset =
        pyJoin ", " (parse_comma_list s.metro_lineage.derived_from_asset) →
      round4 s.metro_technical.bounding_box_x = s.metro_technical.bounding_box_x →
      round4 s.metro_technical.bounding_box_y = s.metro_technical.bounding_box_y →
      round4 s.metro_technical.bounding_box_z = s.metro_technical.bounding_box_z →
      (collect_metadata f s).bind
        (fun doc => Except.map Prod.fst (_apply_metro_dict s doc)) = .ok s := by
  intro f s hv htags hpsd hdas hbx hby hbz
  rw [parse_comma_list_eq] at htags hpsd hdas
  have hname := validate_name_ne s hv
  have hguard : ¬(pyStrip s.metro_lineage.derived_from_asset ≠ "" ∧
      _split_strip s.metro_lineage.derived_from_asset = []) := by
    rintro ⟨hne, hsp⟩
    rw [hsp] at hdas
    exact hne (by rw [hdas]; rfl)
  have hcol : collect_metadata f s = .ok (collect_fields f s) := by
    unfold collect_metadata
    rw [if_neg hguard]
  rw [hcol]
  show Except.map Prod.fst (_apply_metro_dict s (collect_fields f s)) = .ok s
  unfold _apply_metro_dict
  rcases hc : _apply_core (collect_fields f s) s.metro_core with ⟨core6, mc⟩
  have hc1 : core6 = s.metro_core := by
    have h := apply_core_collect f s hname htags
    rw [hc] at h; exact h
  rcases hp : _apply_provenance (collect_fields f s) s.metro_provenance with ⟨prov3, mpr⟩
  have hp1 : prov3 = s.metro_provenance := by
    have h := apply_provenance_collect f s hpsd
    rw [hp] at h; exact h
  rcases ha : _apply_access (collect_fields f s) s.metro_access with ⟨access3, mac⟩
  have ha1 : access3 = s.metro_access := by
    have h := apply_access_collect f s
    rw [ha] at h; exact h
  rcases hl : _apply_lineage (collect_fields f s) s.metro_lineage with ⟨lineage2, mli⟩
  have hl1 : lineage2 = s.metro_lineage := by
    have h := apply_lineage_collect f s hdas
    rw [hl] at h; exact h
  rcases hj : _apply_project (collect_fields f s) s.metro_project with ⟨proj4, mpj⟩
  have hj1 : proj4 = s.metro_project := by
    have h := apply_project_collect f s
    rw [hj] at h; exact h
  have ht := apply_technical_collect f s hbx hby hbz
  rcases he : _apply_technical (collect_fields f s) s.metro_technical with e | p
  · rw [he] at ht
    simp [Except.map] at ht
  · obtain ⟨tech6, mte⟩ := p
    rw [he] at ht
    simp only [Except.map, Except.ok.injEq] at ht
    simp only [bind, Except.bind, Except.map]
    rw [hc1, hp1, ha1, hl1, hj1, ht]

/-- C4 (counterexample): a record with name "A" and tags "a,b" passes
validation, yet `apply(record, collect(record))` rewrites its tags to
the normalized "a, b" — the round trip does not leave every validated
record unchanged. -/
theorem C4_counterexample :
    validate_metadata { scene_default with metro_core :=
      { core_default with asset_name := "A", tags := "a,b" } } = [] ∧
    ((collect_metadata (fun _ => Option.none) { scene_default with metro_core :=
        { core_default with asset_name := "A", tags := "a,b" } }).bind
      (fun doc => Except.map (fun p => p.1.metro_core.tags)
        (_apply_metro_dict { scene_default with metro_core :=
          { core_default with asset_name := "A", tags := "a,b" } } doc)) =
      .ok "a, b") ∧
    ("a, b" : String) ≠ "a,b" := ⟨rfl, rfl, by decide⟩

/-- C4 (witness): the amended idempotence at the concrete record with
name "Cube" and all other fields default (already canonical). -/
theorem C4_witness :
    validate_metadata { scene_default with metro_core :=
      { core_default with asset_name := "Cube" } } = [] ∧
    ((collect_metadata (fun _ => Option.none) { scene_default with metro_core :=
        { core_default with asset_name := "Cube" } }).bind
      (fun doc => Except.map Prod.fst
        (_apply_metro_dict { scene_default with metro_core :=
          { core_default with asset_name := "Cube" } } doc)) =
      .ok { scene_default with metro_core := { core_default with asset_name := "Cube" } }) :=
  ⟨rfl, C4_idempotence (fun _ => Option.none)
    { scene_default with metro_core := { core_default with asset_name := "Cube" } }
    rfl rfl rfl rfl (by simp [round4, scene_default, technical_default])
    (by simp [round4, scene_default, technical_default])
    (by simp [round4, scene_default, technical_default])⟩

theorem dl_pp_collect (f : String → Option PyVal) (s : Scene) :
    dlookup "processingParameters" (collect_fields f s) =
      if pyStrip s.metro_technical.processing_parameters ≠ "" then
        some (match f s.metro_technical.processing_parameters with
          | some v => v
          | Option.none => .str s.metro_technical.processing_parameters)
      else Option.none := by
  unfold collect_fields
  by_cases h : pyStrip s.metro_technical.processing_parameters = "" <;>
    simp only [_set_if, _set_enum, _set_int, _set_tags, dlookup_consIf, dlookup, dlookup_mime_seg,
      acceptStr, acceptEnum, acceptIntProp, pyTruthy, pyStr, pyInt, ne_eq,
      not_false_eq_true, not_true_eq_false, ite_self, decide_eq_true_eq,
      String.reduceEq, reduceIte, ite_true, ite_false, decide_True, decide_False,
      decide_not, not_not, if_true, if_false, and_true, and_false, true_and,
      false_and, and_self, Bool.false_eq_true, Bool.true_eq_false, h]

/-- C8: whenever collection succeeds on a record whose
`processing_parameters` string is non-blank, the collected document
carries `processingParameters` as the parsed JSON value when parsing
succeeds and the verbatim string otherwise; the try/except fallback
means this field itself never raises. -/
theorem C8_processing_parameters :
    ∀ (f : String → Option PyVal) (s : Scene) (doc : List (String × PyVal)),
      collect_metadata f s = .ok doc →
      pyStrip s.metro_technical.processing_parameters ≠ "" →
      dlookup "processingParameters" doc =
        some (match f s.metro_technical.processing_parameters with
          | some v => v
          | Option.none => .str s.metro_technical.processing_parameters) := by
  intro f s doc hok hpp
  have hdoc : doc = collect_fields f s := by
    unfold collect_metadata at hok
    by_cases hg : pyStrip s.metro_lineage.derived_from_asset ≠ "" ∧
        _split_strip s.metro_lineage.derived_from_asset = []
    · rw [if_pos hg] at hok; cases hok
    · rw [if_neg hg] at hok; cases hok; rfl
  subst hdoc
  rw [dl_pp_collect, if_pos hpp]

/-- C8 (witness): with an unparseable `processing_parameters` of "x",
the collected document stores the string verbatim. -/
theorem C8_witness :
    dlookup "processingParameters"
      [("_schema_version", .str "1.0.0"), ("format", .str "glb"),
       ("accessLevel", .str "private"), ("attributionRequired", .bool false),
       ("processingParameters", .str "x"), ("encodingFormat", .str "model/gltf-binary")] =
      some (.str "x") :=
  C8_processing_parameters (fun _ => Option.none)
    { scene_default with metro_technical :=
      { technical_default with processing_parameters := "x" } } _ rfl (by decide)

/-- C10 (counterexample): the no-falsy-write guarantee does NOT extend
to every string field — the dedicated `derivedFromAsset` branch fires
on key presence alone, so a falsy "" value clears the populated
`derived_from_asset` field back to empty and still reports the field
as mapped. -/
theorem C10_counterexample :
    (Except.map (fun p => (p.1.metro_lineage.derived_from_asset, p.2))
      (_apply_metro_dict { scene_default with metro_lineage :=
        { lineage_default with derived_from_asset := "x" } }
        [("derivedFromAsset", .str "")])) = .ok ("", ["derived_from_asset"]) ∧
    ("x" : String) ≠ "" := ⟨rfl, by decide⟩

/-- C10 (amended): for every field assigned through `_set_if`,
`_set_enum` or `_set_tags`, if the value under every tried key is
falsy (empty string, None, 0, False, empty list/dict) the helper
returns no value, so the record field is left unchanged and the field
is not reported as mapped — e.g. applying `{"name": ""}` to any scene
changes nothing and maps nothing.  (Fields with dedicated branches,
such as `derived_from_asset`, are not covered: see the
counterexample.) -/
theorem C10_no_falsy_writes :
    (∀ (data : List (String × PyVal)) (keys : List String) (accept : PyVal → Option String),
      (∀ k, k ∈ keys → ∀ v, dlookup k data = some v → pyTruthy v = false) →
      _set_if data keys accept = Option.none) ∧
    (∀ (data : List (String × PyVal)) (keys : List String) (items : List String),
      (∀ k, k ∈ keys → ∀ v, dlookup k data = some v → pyTruthy v = false) →
      _set_enum data keys items = Option.none) ∧
    (∀ (data : List (String × PyVal)) (keys : List String),
      (∀ k, k ∈ keys → ∀ v, dlookup k data = some v → pyTruthy v = false) →
      _set_tags data keys = Option.none) ∧
    (∀ scene : Scene, _apply_metro_dict scene [("name", PyVal.str "")] =
      .ok (scene, [])) := by
  refine ⟨?_, ?_, ?_, ?_⟩
  · intro data keys accept h
    induction keys with
    | nil => rfl
    | cons k ks ih =>
      have hks : ∀ k2, k2 ∈ ks → ∀ v, dlookup k2 data = some v → pyTruthy v = false :=
        fun k2 hk2 => h k2 (List.mem_cons_of_mem _ hk2)
      cases hd : dlookup k data with
      | none => simp only [_set_if, hd, ih hks]
      | some v =>
        have hv := h k (List.mem_cons_self _ _) v hd
        simp only [_set_if, hd, hv, Bool.false_eq_true, if_false, ite_false, ih hks]
  · intro data keys items h
    induction keys with
    | nil => rfl
    | cons k ks ih =>
      have hks : ∀ k2, k2 ∈ ks → ∀ v, dlookup k2 data = some v → pyTruthy v = false :=
        fun k2 hk2 => h k2 (List.mem_cons_of_mem _ hk2)
      cases hd : dlookup k data with
      | none => simp only [_set_enum, hd, ih hks]
      | some v =>
        have hv := h k (List.mem_cons_self _ _) v hd
        simp only [_set_enum, hd, hv, Bool.false_eq_true, if_false, ite_false, ih hks]
  · intro data keys h
    induction keys with
    | nil => rfl
    | cons k ks ih =>
      have hks : ∀ k2, k2 ∈ ks → ∀ v, dlookup k2 data = some v → pyTruthy v = false :=
        fun k2 hk2 => h k2 (List.mem_cons_of_mem _ hk2)
      cases hd : dlookup k data with
      | none => simp only [_set_tags, hd, ih hks]
      | some v =>
        have hv := h k (List.mem_cons_self _ _) v hd
        simp only [_set_tags, hd, hv, Bool.false_eq_true, if_false, ite_false, ih hks]
  · intro scene
    rfl

/-- C10 (witness): the helper-level guarantees at concrete falsy
documents, and the record-level no-op at the default scene. -/
theorem C10_witness :
    _set_if [("name", PyVal.str "")] ["name", "asset_name", "title"] acceptStr =
      Option.none ∧
    _set_enum [] ["useCase", "use_case"] (enumIds USE_CASE_ITEMS) = Option.none ∧
    _set_tags [] ["tags", "keywords", "dcat:keyword"] = Option.none ∧
    _apply_metro_dict scene_default [("name", PyVal.str "")] = .ok (scene_default, []) := by
  refine ⟨C10_no_falsy_writes.1 _ _ _ ?_, C10_no_falsy_writes.2.1 _ _ _ ?_,
    C10_no_falsy_writes.2.2.1 _ _ ?_, C10_no_falsy_writes.2.2.2 scene_default⟩
  · intro k hk v hv
    simp only [List.mem_cons, List.not_mem_nil, or_false] at hk
    rcases hk with rfl | rfl | rfl
    · simp only [dlookup, String.reduceEq, reduceIte, if_pos, Option.some.injEq] at hv
      rw [← hv]
      rfl
    · simp [dlookup] at hv
    · simp [dlookup] at hv
  · intro k hk v hv
    simp [dlookup] at hv
  · intro k hk v hv
    simp [dlookup] at hv
